import Mathlib

/-!
Shallow embedding of the optimistic-ACK attack/defense streaming-server
codebase, together with theorems settling the frozen claims about it.

JavaScript/TypeScript strings are modelled as `List Char` (`Str`), JS
numbers used integrally as `Int`/`Nat`, JS numbers that can be `NaN` as
`Option Int` (`none` = NaN), and fractional JS numbers (anomaly scores,
window-growth rates) as `Rat`.  Stateful classes become explicit state
records threaded through the operations; `Date.now()` becomes an explicit
`now` parameter.
-/

namespace OptAck

/-! ## JS string primitives (model of the string operations the code uses) -/

/-- JS strings, modelled as lists of characters. -/
abbrev Str := List Char

/-- Coerce a Lean string literal into the `Str` model. -/
def str (s : String) : Str := s.data

/-- JS `String.prototype.includes`: substring containment. -/
def jsIncludes (hay pat : Str) : Bool :=
  hay.tails.any fun t => pat.isPrefixOf t

/-- JS `String.prototype.startsWith`. -/
def jsStartsWith (s p : Str) : Bool := p.isPrefixOf s

/-- JS `String.prototype.endsWith`. -/
def jsEndsWith (s p : Str) : Bool := p.isSuffixOf s

/-- JS `String.prototype.trim`. -/
def jsTrim (s : Str) : Str :=
  ((s.dropWhile Char.isWhitespace).reverse.dropWhile Char.isWhitespace).reverse

/-- JS `String.prototype.split` with a one-character separator. -/
def jsSplit (c : Char) : Str → List Str
  | [] => [[]]
  | x :: xs =>
    match jsSplit c xs with
    | [] => if x = c then [[], []] else [[x]]
    | h :: t => if x = c then [] :: h :: t else (x :: h) :: t

/-- JS `String.prototype.replace` with a plain (non-global) pattern:
removes the first occurrence of `pat` (replacement string is empty). -/
def replaceFirst : Str → Str → Str
  | s, pat =>
    if pat.isPrefixOf s then s.drop pat.length
    else match s with
      | [] => []
      | c :: rest => c :: replaceFirst rest pat

/-- Value of a digit string. -/
def digitsToNat (ds : Str) : Nat :=
  ds.foldl (fun n c => n * 10 + (c.toNat - '0'.toNat)) 0

/-- JS `parseInt(s, 10)`: skip leading whitespace, optional sign, then the
longest digit prefix; `none` models the `NaN` result. -/
def jsParseInt (s : Str) : Option Int :=
  let t := s.dropWhile Char.isWhitespace
  let sign : Int := match t with
    | '-' :: _ => -1
    | _ => 1
  let t' := match t with
    | '-' :: r => r
    | '+' :: r => r
    | _ => t
  let ds := t'.takeWhile Char.isDigit
  if ds.isEmpty then none else some (sign * (digitsToNat ds : Int))

/-- Decimal rendering of an integer (JS template-literal interpolation). -/
def intToStr (i : Int) : Str := (toString i).data

/-- Decimal rendering of a natural number. -/
def natToStr (n : Nat) : Str := (toString n).data

/-- Rendering of a possibly-NaN JS number. -/
def jsNumToStr : Option Int → Str
  | none => str "NaN"
  | some i => intToStr i

/-- NaN-propagating subtraction on JS numbers. -/
def jsSub : Option Int → Option Int → Option Int
  | some a, some b => some (a - b)
  | _, _ => none

/-- NaN-propagating addition on JS numbers. -/
def jsAdd : Option Int → Option Int → Option Int
  | some a, some b => some (a + b)
  | _, _ => none

/-- JS `<` on possibly-NaN numbers: any comparison with NaN is false. -/
def jsLt : Option Int → Option Int → Bool
  | some a, some b => a < b
  | _, _ => false

/-- JS truthiness of a possibly-NaN number (`NaN` and `0` are falsy). -/
def jsNumTruthy : Option Int → Bool
  | some v => v ≠ 0
  | none => false

/-- Lexicographic order on strings by character code (JS default
`Array.prototype.sort` comparison for strings of BMP characters). -/
def lexLe : Str → Str → Bool
  | [], _ => true
  | _ :: _, [] => false
  | x :: xs, y :: ys =>
    if x.val < y.val then true
    else if y.val < x.val then false
    else lexLe xs ys

/-! ## Attack Orchestrator: chunked downloader (`performChunkedDownload`)

`performChunkedDownload` (OptimisticACKAttacker): starting from offset 0,
while `currentOffset < totalSize` it requests the span
`[currentOffset, min (currentOffset + chunkSize - 1) (totalSize - 1)]`
and continues at `endOffset + 1`.  `chunkSpans` returns the list of
`(start, end)` spans it requests.  The `0 < chunkSize` conjunct is the
termination guard of the source's `while` loop; the only call site passes
`Math.max(ackAdvanceSize, 65536)`, which is always positive. -/

def chunkSpans (chunkSize totalSize currentOffset : Nat) : List (Nat × Nat) :=
  if h : currentOffset < totalSize ∧ 0 < chunkSize then
    let endOffset := min (currentOffset + chunkSize - 1) (totalSize - 1)
    (currentOffset, endOffset) :: chunkSpans chunkSize totalSize (endOffset + 1)
  else []
termination_by totalSize - currentOffset
decreasing_by
  obtain ⟨h1, h2⟩ := h
  simp only [Nat.min_def]
  split <;> omega

/-- The chunk size used by `performChunkedDownload`:
`Math.max(this.config.ackAdvanceSize, 65536)`. -/
def downloadChunkSize (ackAdvanceSize : Nat) : Nat := max ackAdvanceSize 65536

/-! ## Attack Orchestrator: config validation (`validateConfig`) -/

inductive TransferType where
  | download
  | streaming
deriving DecidableEq

/-- `AttackConfig` (OptimisticACKAttacker). -/
structure AttackConfig where
  targetHost : Str
  targetPort : Int
  attackDuration : Int
  packetInterval : Int
  ackAdvanceSize : Int
  windowScale : Rat
  enableTransfer : Bool
  transferType : TransferType
  transferUrl : Option Str
  streamId : Option Str
  measureSpeed : Bool

/-- JS truthiness of an optional string (`undefined`/`null` and `""` falsy). -/
def strTruthy : Option Str → Bool
  | none => false
  | some s => ¬s.isEmpty

/-- `OptimisticACKAttacker.validateConfig`, run by the constructor: throws on
the first violation, otherwise returns the (possibly defaulted) config. -/
def validateConfig (config : AttackConfig) : Except Str AttackConfig :=
  if config.targetHost.isEmpty then
    .error (str "Target host is required")
  else if config.targetPort ≤ 0 ∨ config.targetPort > 65535 then
    .error (str "Target port must be between 1 and 65535")
  else if config.attackDuration ≤ 0 then
    .error (str "Attack duration must be positive")
  else if config.packetInterval ≤ 0 then
    .error (str "Packet interval must be positive")
  else if config.ackAdvanceSize ≤ 0 then
    .error (str "ACK advance size must be positive")
  else
    .ok <|
      if config.enableTransfer then
        if config.transferType = .download ∧ ¬strTruthy config.transferUrl then
          let url := str "http://" ++ config.targetHost ++ str ":" ++
            intToStr config.targetPort ++ str "/download/xl.dat"
          { config with transferUrl := some url }
        else if config.transferType = .streaming then
          let config :=
            if ¬strTruthy config.streamId then
              { config with streamId := some (str "demo-stream") }
            else config
          let url := str "http://" ++ config.targetHost ++ str ":" ++
            intToStr config.targetPort ++ str "/stream/" ++
            (config.streamId.getD []) ++ str "/playlist.m3u8"
          { config with transferUrl := some url }
        else config
      else config

/-! ## Security Middleware (`SecurityMiddleware`) -/

/-- An HTTP request as seen by the middleware and the range handler:
lower-cased header names mapped to values. -/
structure HttpRequest where
  headers : List (Str × Str)

/-- `req.headers[name]` (present header value). -/
def headerValue (req : HttpRequest) (name : Str) : Option Str :=
  (req.headers.find? (fun p => p.1 == name)).map (·.2)

/-- `req.headers['user-agent'] || ''`. -/
def reqUserAgent (req : HttpRequest) : Str :=
  (headerValue req (str "user-agent")).getD []

/-- The whitelist of legitimate-client user-agent markers
(`SecurityMiddleware.isLegitimateClient`). -/
def legitimateAgents : List Str :=
  [str "Mozilla/", str "Chrome/", str "Safari/", str "Firefox/",
   str "Edge/", str "Opera/", str "curl/", str "wget/",
   str "Node.js", str "axios/", str "okhttp/", str "Python-urllib",
   str "java/", str "Go-http-client", str "libcurl", str "Postman",
   str "Insomnia"]

/-- `SecurityMiddleware.isLegitimateClient`. -/
def isLegitimateClient (userAgent : Str) : Bool :=
  if legitimateAgents.any (fun legit => jsIncludes userAgent legit) then true
  else if (jsTrim userAgent).isEmpty then true
  else false

/-- Malicious user-agent markers (`detectExplicitAttack`, step 2). -/
def maliciousAgents : List Str :=
  [str "OptimisticACK-Attack-Tool", str "OptimisticACK-HLS-Client",
   str "exploit-framework", str "attack-simulator"]

/-- Suspicious custom headers (`detectExplicitAttack`, step 3). -/
def suspiciousHeaders : List Str :=
  [str "x-attack-type", str "x-exploit", str "x-malicious",
   str "x-optimistic-ack"]

/-- `SecurityMiddleware.isRapidFireRequest`: stubbed to always allow. -/
def isRapidFireRequest (_ip : Str) : Bool := false

/-- `SecurityMiddleware.isAbnormalRangeRequest`.  The `try`/`catch` in the
source cannot fire (none of `replace`/`split`/`parseInt` throws), so only
the `try` body is modelled.  JS numeric quirks are preserved: a `NaN`
`start`/`end` fails every comparison, and `end` is additionally subject to
a truthiness test (`NaN` and `0` falsy). -/
def isAbnormalRangeRequest (rangeHeader : Str) : Bool :=
  let parts := jsSplit '-' (replaceFirst rangeHeader (str "bytes="))
  let start := jsParseInt (parts.getD 0 [])
  let endv : Option Int :=
    match parts.getD 1 [] with
    | [] => none
    | p => jsParseInt p
  if jsNumTruthy endv ∧ jsLt (some (100 * 1024 * 1024)) (jsSub endv start) then
    true
  else if jsLt start (some 0) ∨ (jsNumTruthy endv ∧ jsLt endv start) then
    true
  else false

/-- `SecurityMiddleware.detectExplicitAttack`, as the classification it
returns: `none` = allow, `some reason` = block.  The side effect of step 2
(escalating the connection via `markConnectionSuspicious`) does not affect
the returned verdict and is not part of this function's value. -/
def detectExplicitAttack (req : HttpRequest) : Option Str :=
  let userAgent := reqUserAgent req
  if isLegitimateClient userAgent then none
  else if headerValue req (str "x-simulate-attack") = some (str "optimistic-ack") then
    some (str "Explicit optimistic ACK attack simulation detected")
  else
    match maliciousAgents.find? (fun m => jsIncludes userAgent m) with
    | some m => some (str "Malicious user agent detected: " ++ m)
    | none =>
      match suspiciousHeaders.find?
          (fun h => match headerValue req h with
            | some v => ¬v.isEmpty
            | none => false) with
      | some h => some (str "Suspicious header detected: " ++ h)
      | none =>
        if isRapidFireRequest [] then
          some (str "Rapid-fire request pattern detected (potential ACK flood)")
        else
          match headerValue req (str "range") with
          | some r =>
            if ¬r.isEmpty ∧ isAbnormalRangeRequest r then
              some (str "Abnormal Range request pattern detected")
            else none
          | none => none

/-! ## Streaming Server (`StreamingServer`) -/

/-- The playlist returned by `generateHLSPlaylist` when the stream
directory does not exist (exact template literal from the source). -/
def emptyPlaylist : Str :=
  str "#EXTM3U\n#EXT-X-VERSION:3\n#EXT-X-TARGETDURATION:10\n#EXT-X-MEDIA-SEQUENCE:0\n#EXT-X-ENDLIST"

/-- The playlist header when the directory exists (ends with a newline). -/
def hlsHeader : Str :=
  str "#EXTM3U\n#EXT-X-VERSION:3\n#EXT-X-TARGETDURATION:10\n#EXT-X-MEDIA-SEQUENCE:0\n"

/-- `StreamingServer.generateHLSPlaylist`.  The filesystem is abstracted
as: `dirOk` = whether the stream directory exists, `files` = the names
`fs.readdirSync` returns for it.  JS `Array.prototype.sort` (default
comparator) is string sort by UTF-16 code units, i.e. `lexLe` for the
BMP-only names at hand. -/
def generateHLSPlaylist (dirOk : Bool) (files : List Str) : Str :=
  if ¬dirOk then emptyPlaylist
  else
    let segments := (files.filter (fun f => jsEndsWith f (str ".ts"))).mergeSort lexLe
    let playlist := segments.foldl
      (fun acc segment => acc ++ str "#EXTINF:10.0,\n" ++ segment ++ str "\n")
      hlsHeader
    playlist ++ str "#EXT-X-ENDLIST"

/-- The line filter of `OptimisticACKAttacker.parsePlaylist`:
`line.trim() && !line.startsWith('#')`. -/
def keepLine (line : Str) : Bool :=
  ¬(jsTrim line).isEmpty ∧ ¬jsStartsWith line (str "#")

/-- `OptimisticACKAttacker.parsePlaylist`: keep every line that is
non-blank after trimming and does not start with `#`, trimmed. -/
def parsePlaylist (playlist : Str) : List Str :=
  ((jsSplit '\n' playlist).filter keepLine).map jsTrim

/-- The response produced by `StreamingServer.handleRangeRequest`:
status plus the headers it writes and the byte bounds handed to
`fs.createReadStream`. -/
structure RangeResponse where
  status : Nat
  contentRange : Str
  acceptRanges : Str
  contentLength : Option Int
  contentType : Str
  streamStart : Option Int
  streamEnd : Option Int
deriving DecidableEq

/-- `StreamingServer.handleRangeRequest` on a file of size `statSize` and a
raw `Range` header value.  No validation is performed on the parsed
values; `NaN` results (`none`) propagate into the headers. -/
def handleRangeRequest (statSize : Int) (range : Str) : RangeResponse :=
  let parts := jsSplit '-' (replaceFirst range (str "bytes="))
  let start := jsParseInt (parts.getD 0 [])
  let endv : Option Int :=
    match parts.getD 1 [] with
    | [] => some (statSize - 1)
    | p => jsParseInt p
  let chunksize := jsAdd (jsSub endv start) (some 1)
  { status := 206
    contentRange := str "bytes " ++ jsNumToStr start ++ str "-" ++
      jsNumToStr endv ++ str "/" ++ intToStr statSize
    acceptRanges := str "bytes"
    contentLength := chunksize
    contentType := str "application/octet-stream"
    streamStart := start
    streamEnd := endv }

/-! ## Traffic Analyzer (`TrafficAnalyzer`) -/

structure TrafficPattern where
  timestamp : Int
  sourceIP : Str
  destinationIP : Str
  sourcePort : Nat
  destinationPort : Nat
  sequenceNumber : Int
  ackNumber : Int
  windowSize : Rat
  flags : List Str
  dataLength : Int
deriving DecidableEq

structure AttackSignature where
  rapidACKs : Bool
  abnormalWindowGrowth : Bool
  sequenceGaps : Bool
  suspiciousPattern : Bool
deriving DecidableEq

/-- The per-connection key used by the analyzer maps. -/
def connectionKey (p : TrafficPattern) : Str :=
  p.sourceIP ++ str ":" ++ natToStr p.sourcePort

/-- Lookup in a string-keyed map (JS `Map.get` with a default). -/
def mapGetD {α : Type} (m : List (Str × α)) (k : Str) (d : α) : α :=
  ((m.find? (fun p => p.1 == k)).map (·.2)).getD d

/-- Update in a string-keyed map (JS `Map.set`). -/
def mapSet {α : Type} (m : List (Str × α)) (k : Str) (v : α) : List (Str × α) :=
  if m.any (fun p => p.1 == k) then
    m.map (fun p => if p.1 == k then (k, v) else p)
  else m ++ [(k, v)]

/-- Mutable state of a `TrafficAnalyzer` instance.  The aggregate fields
of `getTrafficSummary` are derived data and not part of the state. -/
structure TrafficAnalyzerState where
  trafficHistory : List TrafficPattern
  windowSizeHistory : List (Str × List Rat)
  ackFrequencyMap : List (Str × List Int)

/-- `TrafficAnalyzer.updateWindowSizeHistory`: append the packet's window
size; once the history exceeds 100 entries, keep only the most recent 50
(`splice(0, length - 50)`). -/
def updateWindowSizeHistory (st : TrafficAnalyzerState) (p : TrafficPattern) :
    TrafficAnalyzerState :=
  let key := connectionKey p
  let history := mapGetD st.windowSizeHistory key [] ++ [p.windowSize]
  let history :=
    if history.length > 100 then history.drop (history.length - 50) else history
  { st with windowSizeHistory := mapSet st.windowSizeHistory key history }

/-- `TrafficAnalyzer.updateACKFrequency`: record the timestamp of each
ACK-flagged packet and drop entries older than 10 seconds. -/
def updateACKFrequency (st : TrafficAnalyzerState) (p : TrafficPattern) :
    TrafficAnalyzerState :=
  if ¬p.flags.contains (str "ACK") then st
  else
    let key := connectionKey p
    let cutoff := p.timestamp - 10000
    let ackTimes := mapGetD st.ackFrequencyMap key [] ++ [p.timestamp]
    let ackTimes := ackTimes.dropWhile (fun t => t < cutoff)
    { st with ackFrequencyMap := mapSet st.ackFrequencyMap key ackTimes }

/-- `TrafficAnalyzer.detectRapidACKs` (uses `Date.now()`, passed as `now`):
more than 50 ACKs within the last 5 seconds, requiring at least 10
samples on record. -/
def detectRapidACKs (now : Int) (st : TrafficAnalyzerState) (key : Str) : Bool :=
  let ackTimes := mapGetD st.ackFrequencyMap key []
  if ackTimes.length < 10 then false
  else (ackTimes.filter (fun time => time > now - 5000)).length > 50

/-- `TrafficAnalyzer.detectAbnormalWindowGrowth`: among the last 5 window
sizes, count the adjacent steps that grew by more than 1.5x; signal when
at least 3 of those (4) steps did. -/
def growthSteps : List Rat → Nat
  | a :: b :: rest => (if b > a * (1.5 : Rat) then 1 else 0) + growthSteps (b :: rest)
  | _ => 0

def detectAbnormalWindowGrowth (st : TrafficAnalyzerState) (key : Str) : Bool :=
  let windowHistory := mapGetD st.windowSizeHistory key []
  if windowHistory.length < 5 then false
  else
    let recent := windowHistory.drop (windowHistory.length - 5)
    growthSteps recent ≥ 3

/-- `TrafficAnalyzer.detectSequenceGaps`: compare the current packet's ack
number with that of the immediately preceding packet of the same
connection (second-to-last of the last ≤10 same-connection packets, the
current packet having already been pushed onto the history); signal when
the absolute gap exceeds 1,000,000. -/
def detectSequenceGaps (trafficHistory : List TrafficPattern)
    (packet : TrafficPattern) : Bool :=
  let recentPackets := trafficHistory.filter
    (fun p => p.sourceIP == packet.sourceIP && p.sourcePort == packet.sourcePort)
  let recentPackets := recentPackets.drop (recentPackets.length - 10)
  if recentPackets.length < 2 then false
  else
    match recentPackets[recentPackets.length - 2]? with
    | some lastPacket => (packet.ackNumber - lastPacket.ackNumber).natAbs > 1000000
    | none => false

/-- `TrafficAnalyzer.detectAttackSignatures` (with
`detectSuspiciousPattern` inlined as the conjunction it recomputes). -/
def detectAttackSignatures (now : Int) (st : TrafficAnalyzerState)
    (packet : TrafficPattern) : AttackSignature :=
  let key := connectionKey packet
  { rapidACKs := detectRapidACKs now st key
    abnormalWindowGrowth := detectAbnormalWindowGrowth st key
    sequenceGaps := detectSequenceGaps st.trafficHistory packet
    suspiciousPattern := detectRapidACKs now st key &&
      detectAbnormalWindowGrowth st key }

/-- `TrafficAnalyzer.analyzePacket`: push the packet, update the two
per-connection histories, trim the global history (keep the last 5000
once it exceeds 10000), then compute the signature. -/
def analyzePacket (now : Int) (st : TrafficAnalyzerState)
    (packet : TrafficPattern) : TrafficAnalyzerState × AttackSignature :=
  let st := { st with trafficHistory := st.trafficHistory ++ [packet] }
  let st := updateWindowSizeHistory st packet
  let st := updateACKFrequency st packet
  let st :=
    if st.trafficHistory.length > 10000 then
      { st with trafficHistory :=
          st.trafficHistory.drop (st.trafficHistory.length - 5000) }
    else st
  (st, detectAttackSignatures now st packet)

/-! ## Connection Analyzer (`ConnectionAnalyzer`) -/

inductive ConnType where
  | file_download
  | stream_request
  | websocket
deriving DecidableEq

def connTypeStr : ConnType → Str
  | .file_download => str "file_download"
  | .stream_request => str "stream_request"
  | .websocket => str "websocket"

structure ConnectionData where
  ip : Str
  timestamp : Int
  ctype : ConnType
  resource : Option Str
  userAgent : Option Str
  bytesTransferred : Option Int
  duration : Option Int
deriving DecidableEq

/-- `ConnectionAnalyzer.generateConnectionId` applied to a connection:
`ip_timestamp_type`. -/
def generateConnectionId (c : ConnectionData) : Str :=
  c.ip ++ str "_" ++ intToStr c.timestamp ++ str "_" ++ connTypeStr c.ctype

/-- `ConnectionAnalyzer.generateConnectionId()` with no argument (the call
`logConnection` makes): `Date.now()` followed by an underscore and a
9-character base-36 random suffix. -/
def freshConnectionId (now : Int) (rand : Str) : Str :=
  intToStr now ++ str "_" ++ rand

inductive SuspActType where
  | rapid_requests
  | large_download
  | unusual_pattern
deriving DecidableEq

inductive Severity where
  | low
  | medium
  | high
  | critical
deriving DecidableEq

structure SuspiciousActivity where
  ip : Str
  atype : SuspActType
  timestamp : Int
  details : Str
  severity : Severity
deriving DecidableEq

/-- State of a `ConnectionAnalyzer`: per-IP connection history, the active
connection-id set and the suspicious-activity log
(`metrics.suspiciousActivity`).  The numeric aggregate metrics are
recomputed from `connections` by `updateMetrics` and are derived data. -/
structure ConnectionAnalyzerState where
  connections : List (Str × List ConnectionData)
  activeConnections : List Str
  suspiciousActivity : List SuspiciousActivity
deriving DecidableEq

/-- `ConnectionAnalyzer.formatBytes` (two-decimal rendering approximated
by rounding half up; the produced string feeds log text only). -/
def twoDecimals (q : Rat) : Str :=
  let c : Int := (q * 100 + 1/2).floor
  intToStr (c / 100) ++ str "." ++ natToStr ((c % 100).toNat / 10) ++
    natToStr ((c % 100).toNat % 10)

def formatBytes (bytes : Int) : Str :=
  if bytes ≥ 1024 * 1024 * 1024 then
    twoDecimals ((bytes : Rat) / (1024 * 1024 * 1024)) ++ str " GB"
  else if bytes ≥ 1024 * 1024 then
    twoDecimals ((bytes : Rat) / (1024 * 1024)) ++ str " MB"
  else if bytes ≥ 1024 then
    twoDecimals ((bytes : Rat) / 1024) ++ str " KB"
  else intToStr bytes ++ str " B"

/-- `ConnectionAnalyzer.flagSuspiciousActivity`: append to the capped
(100-entry) log. -/
def flagSuspiciousActivity (now : Int) (ip : Str) (atype : SuspActType)
    (details : Str) (severity : Severity) (st : ConnectionAnalyzerState) :
    ConnectionAnalyzerState :=
  let log := st.suspiciousActivity ++
    [{ ip := ip, atype := atype, timestamp := now, details := details,
       severity := severity }]
  let log := if log.length > 100 then log.drop 1 else log
  { st with suspiciousActivity := log }

/-- `ConnectionAnalyzer.checkSuspiciousActivity`. -/
def checkSuspiciousActivity (now : Int) (ip : Str)
    (newConnection : ConnectionData) (st : ConnectionAnalyzerState) :
    ConnectionAnalyzerState :=
  let ipConnections := mapGetD st.connections ip []
  let recentConnections := ipConnections.filter
    (fun c => now - c.timestamp < 60000)
  let st :=
    if recentConnections.length ≥ 10 then
      flagSuspiciousActivity now ip .rapid_requests
        (natToStr recentConnections.length ++ str " requests in the last minute")
        .high st
    else st
  let typeCount := (recentConnections.filter
    (fun c => c.ctype == newConnection.ctype)).length
  if typeCount > 5 ∧ newConnection.ctype = .file_download then
    flagSuspiciousActivity now ip .unusual_pattern
      (str "Repeated " ++ connTypeStr newConnection.ctype ++ str " requests")
      .medium st
  else st

/-- `ConnectionAnalyzer.logConnection`: records the entry under the IP
(capped 1000 per IP), marks the freshly generated id active, runs the
suspicion check, and returns the id. -/
def logConnection (now : Int) (rand : Str) (ip : Str) (ctype : ConnType)
    (resource userAgent : Option Str) (st : ConnectionAnalyzerState) :
    Str × ConnectionAnalyzerState :=
  let connectionId := freshConnectionId now rand
  let connectionData : ConnectionData :=
    { ip := ip, timestamp := now, ctype := ctype, resource := resource,
      userAgent := userAgent, bytesTransferred := some 0, duration := none }
  let ipConnections := mapGetD st.connections ip [] ++ [connectionData]
  let ipConnections :=
    if ipConnections.length > 1000 then ipConnections.drop 1 else ipConnections
  let st := { st with connections := mapSet st.connections ip ipConnections }
  let st := { st with activeConnections := st.activeConnections ++ [connectionId] }
  let st := checkSuspiciousActivity now ip connectionData st
  (connectionId, st)

/-- Replace the first connection in a per-IP list whose recomputed id
matches, setting its transferred bytes. -/
def setBytesOnMatch (id : Str) (bytes : Int) :
    List ConnectionData → Option (List ConnectionData)
  | [] => none
  | c :: rest =>
    if generateConnectionId c == id then
      some ({ c with bytesTransferred := some bytes } :: rest)
    else
      match setBytesOnMatch id bytes rest with
      | some rest' => some (c :: rest')
      | none => none

/-- Walk the per-IP entries in order, updating the first entry that
contains a matching connection; return the owning IP when found. -/
def updateBytesInEntries (id : Str) (bytes : Int) :
    List (Str × List ConnectionData) →
    Option (List (Str × List ConnectionData) × Str)
  | [] => none
  | (ip, conns) :: rest =>
    match setBytesOnMatch id bytes conns with
    | some conns' => some ((ip, conns') :: rest, ip)
    | none =>
      match updateBytesInEntries id bytes rest with
      | some (rest', ip') => some ((ip, conns) :: rest', ip')
      | none => none

/-- `ConnectionAnalyzer.updateConnectionBytes`: locate the connection by
recomputing `generateConnectionId` for each stored entry, record the
bytes, and flag `large_download` (severity medium) past 100 MB. -/
def updateConnectionBytes (now : Int) (connectionId : Str) (bytes : Int)
    (st : ConnectionAnalyzerState) : ConnectionAnalyzerState :=
  match updateBytesInEntries connectionId bytes st.connections with
  | none => st
  | some (connections', ip) =>
    let st := { st with connections := connections' }
    if bytes > 100 * 1024 * 1024 then
      flagSuspiciousActivity now ip .large_download
        (str "Large download detected: " ++ formatBytes bytes) .medium st
    else st

/-- Replace the first connection in a per-IP list whose recomputed id
matches, setting its duration. -/
def setDurationOnMatch (now : Int) (id : Str) :
    List ConnectionData → Option (List ConnectionData)
  | [] => none
  | c :: rest =>
    if generateConnectionId c == id then
      some ({ c with duration := some (now - c.timestamp) } :: rest)
    else
      match setDurationOnMatch now id rest with
      | some rest' => some (c :: rest')
      | none => none

def setDurationInEntries (now : Int) (id : Str) :
    List (Str × List ConnectionData) →
    Option (List (Str × List ConnectionData))
  | [] => none
  | (ip, conns) :: rest =>
    match setDurationOnMatch now id conns with
    | some conns' => some ((ip, conns') :: rest)
    | none =>
      match setDurationInEntries now id rest with
      | some rest' => some ((ip, conns) :: rest')
      | none => none

/-- `ConnectionAnalyzer.closeConnection`: drop the id from the active set
and record the duration on the matching connection. -/
def closeConnection (now : Int) (connectionId : Str)
    (st : ConnectionAnalyzerState) : ConnectionAnalyzerState :=
  let st := { st with activeConnections :=
    st.activeConnections.filter (fun a => ¬a == connectionId) }
  match setDurationInEntries now connectionId st.connections with
  | none => st
  | some connections' => { st with connections := connections' }

/-! ## Defense System (`DefenseSystem`) -/

structure DefenseConfig where
  ackValidationEnabled : Bool
  rateLimitingEnabled : Bool
  sequenceTrackingEnabled : Bool
  adaptiveWindowEnabled : Bool
  anomalyDetectionEnabled : Bool
  quarantineEnabled : Bool
  maxACKsPerSecond : Int
  maxWindowGrowthRate : Rat
  maxSequenceGap : Int
  suspiciousPatternThreshold : Rat
  quarantineDuration : Int
deriving DecidableEq

/-- The defaults merged in the `DefenseSystem` constructor. -/
def defaultDefenseConfig : DefenseConfig :=
  { ackValidationEnabled := true
    rateLimitingEnabled := true
    sequenceTrackingEnabled := true
    adaptiveWindowEnabled := true
    anomalyDetectionEnabled := true
    quarantineEnabled := true
    maxACKsPerSecond := 100
    maxWindowGrowthRate := 2
    maxSequenceGap := 1048576
    suspiciousPatternThreshold := 0.7
    quarantineDuration := 300000 }

structure ConnectionState where
  ip : Str
  port : Int
  expectedSeq : Int
  expectedAck : Int
  lastValidAck : Int
  windowSize : Rat
  ackCount : Int
  lastACKTime : Int
  suspicious : Bool
  quarantined : Bool
  quarantineUntil : Int
  anomalyScore : Rat
deriving DecidableEq

inductive DActionType where
  | block
  | rate_limit
  | quarantine
  | alert
  | reject_packet
deriving DecidableEq

structure DefenseAction where
  dtype : DActionType
  reason : Str
  severity : Severity
  timestamp : Int
  connectionId : Str
deriving DecidableEq

structure ValidationResult where
  allowed : Bool
  action : Option DefenseAction
deriving DecidableEq

/-- Mutable state of a `DefenseSystem` instance. -/
structure DefenseSystemState where
  config : DefenseConfig
  connectionStates : List (Str × ConnectionState)
  quarantinedIPs : List Str
  defenseActions : List DefenseAction
deriving DecidableEq

/-- The `ip:port` connection id. -/
def connId (ip : Str) (port : Int) : Str := ip ++ str ":" ++ intToStr port

/-- Lookup returning `Option` (JS `Map.get`). -/
def mapGet? {α : Type} (m : List (Str × α)) (k : Str) : Option α :=
  (m.find? (fun p => p.1 == k)).map (·.2)

/-- `DefenseSystem.createDefenseAction`: append to the capped action log
(trim to the most recent 500 past 1000 entries) and return the action. -/
def createDefenseAction (dtype : DActionType) (reason : Str)
    (severity : Severity) (now : Int) (connectionId : Str)
    (ds : DefenseSystemState) : DefenseAction × DefenseSystemState :=
  let action : DefenseAction :=
    { dtype := dtype, reason := reason, severity := severity,
      timestamp := now, connectionId := connectionId }
  let actions := ds.defenseActions ++ [action]
  let actions :=
    if actions.length > 1000 then actions.drop (actions.length - 500) else actions
  (action, { ds with defenseActions := actions })

/-- `DefenseSystem.isQuarantined`. -/
def isQuarantined (ip : Str) (ds : DefenseSystemState) : Bool :=
  ds.quarantinedIPs.contains ip

/-- `DefenseSystem.getOrCreateConnectionState`. -/
def getOrCreateConnectionState (now : Int) (ip : Str) (port : Int)
    (ds : DefenseSystemState) : ConnectionState × DefenseSystemState :=
  let k := connId ip port
  match mapGet? ds.connectionStates k with
  | some st => (st, ds)
  | none =>
    let st : ConnectionState :=
      { ip := ip, port := port, expectedSeq := 0, expectedAck := 0,
        lastValidAck := 0, windowSize := 0, ackCount := 0,
        lastACKTime := now, suspicious := false, quarantined := false,
        quarantineUntil := 0, anomalyScore := 0 }
    (st, { ds with connectionStates := mapSet ds.connectionStates k st })

/-- `DefenseSystem.validateACKNumber`. -/
def validateACKNumber (config : DefenseConfig) (st : ConnectionState)
    (ack : Int) : Bool × Str :=
  let ackAdvance := ack - st.lastValidAck
  let suspiciousAdvanceThreshold := config.maxSequenceGap * 2
  if ackAdvance > suspiciousAdvanceThreshold then
    (false, str "Highly suspicious ACK detected: advancing " ++
      intToStr ackAdvance ++ str " bytes beyond expected (threshold: " ++
      intToStr suspiciousAdvanceThreshold ++ str ")")
  else if ack < st.lastValidAck - 1024 ∧ st.lastValidAck > 1024 then
    (false, str "Significant ACK regression detected: " ++ intToStr ack ++
      str " << " ++ intToStr st.lastValidAck)
  else (true, [])

/-- `DefenseSystem.checkACKRateLimit`: the counter mutation persists in
the connection state even when the packet is allowed. -/
def checkACKRateLimit (now : Int) (config : DefenseConfig)
    (st : ConnectionState) : ConnectionState × Bool × Str :=
  let timeSinceLastACK := now - st.lastACKTime
  let st :=
    if timeSinceLastACK > 1000 then
      { st with ackCount := 0, lastACKTime := now }
    else st
  let st := { st with ackCount := st.ackCount + 1 }
  let effectiveLimit := config.maxACKsPerSecond * 3
  if st.ackCount > effectiveLimit then
    (st, false, str "Extreme ACK rate limit exceeded: " ++
      intToStr st.ackCount ++ str " ACKs/second (limit: " ++
      intToStr effectiveLimit ++ str ")")
  else (st, true, [])

/-- `DefenseSystem.validateSequenceNumber`. -/
def validateSequenceNumber (st : ConnectionState) (seq : Int) : Bool × Str :=
  if st.expectedSeq > 0 then
    let seqDeviation := (seq - st.expectedSeq).natAbs
    if seqDeviation > 65536 then
      (false, str "Sequence number deviation too large: " ++
        natToStr seqDeviation ++ str " bytes")
    else (true, [])
  else (true, [])

/-- `DefenseSystem.validateWindowSize`. -/
def validateWindowSize (config : DefenseConfig) (st : ConnectionState)
    (windowSize : Rat) : Bool × Str :=
  if st.windowSize > 0 then
    let growthRate := windowSize / st.windowSize
    if growthRate > config.maxWindowGrowthRate then
      (false, str "Abnormal window growth: " ++ twoDecimals growthRate ++
        str "x increase")
    else (true, [])
  else (true, [])

def joinWith (sep : Str) : List Str → Str
  | [] => []
  | [x] => x
  | x :: rest => x ++ sep ++ joinWith sep rest

/-- `DefenseSystem.detectAnomalies`: anomalous iff at least two signature
bits are set (the connection state argument of the source is unused). -/
def detectAnomalies (signature : AttackSignature) : Bool × Str :=
  let anomalies :=
    (if signature.rapidACKs then [str "rapid ACK pattern"] else []) ++
    (if signature.abnormalWindowGrowth then [str "abnormal window growth"] else []) ++
    (if signature.sequenceGaps then [str "large sequence gaps"] else []) ++
    (if signature.suspiciousPattern then [str "suspicious traffic pattern"] else [])
  if anomalies.length ≥ 2 then
    (true, str "Multiple attack indicators: " ++ joinWith (str ", ") anomalies)
  else (false, [])

/-- `DefenseSystem.updateAnomalyScore`: clamp at 1.0 and mark the
connection suspicious past 0.5. -/
def updateAnomalyScore (st : ConnectionState) (increment : Rat) :
    ConnectionState :=
  let st := { st with anomalyScore := min 1 (st.anomalyScore + increment) }
  if st.anomalyScore > (0.5 : Rat) then { st with suspicious := true } else st

/-- `DefenseSystem.updateConnectionState` (run on allowed packets). -/
def updateConnectionState (st : ConnectionState) (seq ack : Int)
    (windowSize : Rat) : ConnectionState :=
  { st with
    expectedSeq := seq
    expectedAck := ack
    lastValidAck := max st.lastValidAck ack
    windowSize := windowSize
    anomalyScore := max 0 (st.anomalyScore - (0.01 : Rat)) }

/-- `DefenseSystem.quarantineIP`: add the IP to the quarantine set and
mark every tracked connection state of that IP (including the state
currently being validated, threaded separately to mirror JS reference
semantics).  The delayed auto-release timer is time-driven and outside
this per-call model. -/
def quarantineIP (now : Int) (ip : Str) (ds : DefenseSystemState)
    (st : ConnectionState) : DefenseSystemState × ConnectionState :=
  if ¬ds.config.quarantineEnabled then (ds, st)
  else
    let quarantined :=
      if ds.quarantinedIPs.contains ip then ds.quarantinedIPs
      else ds.quarantinedIPs ++ [ip]
    let upd := fun (s : ConnectionState) =>
      if s.ip == ip then
        { s with quarantined := true,
                 quarantineUntil := now + ds.config.quarantineDuration }
      else s
    let ds := { ds with
      quarantinedIPs := quarantined
      connectionStates := ds.connectionStates.map (fun p => (p.1, upd p.2)) }
    (ds, upd st)

/-- Check 1 of `runDefenseChecks`: ACK validation, only applied to
likely-attack connections (`suspicious` or anomaly score above 0.5). -/
def ackValidationStep (now ack : Int) (flags : List Str)
    (ds : DefenseSystemState) (st : ConnectionState) :
    DefenseSystemState × ConnectionState × Option ValidationResult :=
  let connectionId := connId st.ip st.port
  let isLikelyAttack := st.suspicious || decide (st.anomalyScore > (0.5 : Rat))
  if ds.config.ackValidationEnabled && flags.contains (str "ACK") && isLikelyAttack then
    match validateACKNumber ds.config st ack with
    | (true, _) => (ds, st, none)
    | (false, reason) =>
      let st := updateAnomalyScore st (0.3 : Rat)
      let (action, ds) := createDefenseAction .reject_packet reason .high now connectionId ds
      (ds, st, some ⟨false, some action⟩)
  else (ds, st, none)

/-- Check 2 of `runDefenseChecks`: rate limiting of ACK-flagged packets.
The counter mutation persists even when the packet passes. -/
def rateLimitStep (now : Int) (flags : List Str)
    (ds : DefenseSystemState) (st : ConnectionState) :
    DefenseSystemState × ConnectionState × Option ValidationResult :=
  let connectionId := connId st.ip st.port
  if ds.config.rateLimitingEnabled && flags.contains (str "ACK") then
    match checkACKRateLimit now ds.config st with
    | (st, true, _) => (ds, st, none)
    | (st, false, reason) =>
      let st := updateAnomalyScore st (0.2 : Rat)
      let (action, ds) := createDefenseAction .rate_limit reason .medium now connectionId ds
      (ds, st, some ⟨false, some action⟩)
  else (ds, st, none)

/-- Check 3 of `runDefenseChecks`: sequence tracking. -/
def sequenceStep (now seq : Int)
    (ds : DefenseSystemState) (st : ConnectionState) :
    DefenseSystemState × ConnectionState × Option ValidationResult :=
  let connectionId := connId st.ip st.port
  if ds.config.sequenceTrackingEnabled then
    match validateSequenceNumber st seq with
    | (true, _) => (ds, st, none)
    | (false, reason) =>
      let st := updateAnomalyScore st (0.25 : Rat)
      let (action, ds) := createDefenseAction .reject_packet reason .medium now connectionId ds
      (ds, st, some ⟨false, some action⟩)
  else (ds, st, none)

/-- Check 4 of `runDefenseChecks`: window-size validation — alert only,
never blocks. -/
def windowStep (now : Int) (windowSize : Rat)
    (ds : DefenseSystemState) (st : ConnectionState) :
    DefenseSystemState × ConnectionState :=
  let connectionId := connId st.ip st.port
  if ds.config.adaptiveWindowEnabled then
    match validateWindowSize ds.config st windowSize with
    | (true, _) => (ds, st)
    | (false, reason) =>
      let st := updateAnomalyScore st (0.2 : Rat)
      let (_, ds) := createDefenseAction .alert reason .medium now connectionId ds
      (ds, st)
  else (ds, st)

/-- Check 5 of `runDefenseChecks`: anomaly detection, with the quarantine
escalation once the anomaly score reaches the threshold. -/
def anomalyStep (now : Int) (signature : AttackSignature)
    (ds : DefenseSystemState) (st : ConnectionState) :
    DefenseSystemState × ConnectionState × ValidationResult :=
  let connectionId := connId st.ip st.port
  if ds.config.anomalyDetectionEnabled then
    match detectAnomalies signature with
    | (false, _) => (ds, st, ⟨true, none⟩)
    | (true, reason) =>
      let st := updateAnomalyScore st (0.4 : Rat)
      if st.anomalyScore ≥ ds.config.suspiciousPatternThreshold then
        let (ds, st) := quarantineIP now st.ip ds st
        let (action, ds) := createDefenseAction .quarantine reason .critical now connectionId ds
        (ds, st, ⟨false, some action⟩)
      else
        let (action, ds) := createDefenseAction .block reason .high now connectionId ds
        (ds, st, ⟨false, some action⟩)
  else (ds, st, ⟨true, none⟩)

/-- `DefenseSystem.runDefenseChecks`: the five checks in source order,
short-circuiting on the first rejection, with every connection-state
mutation threaded (JS mutates the shared state object in place, so
rate-limit counters and anomaly-score bumps survive rejections). -/
def runDefenseChecks (now : Int) (seq ack : Int) (windowSize : Rat)
    (flags : List Str) (signature : AttackSignature)
    (ds : DefenseSystemState) (st : ConnectionState) :
    DefenseSystemState × ConnectionState × ValidationResult :=
  match ackValidationStep now ack flags ds st with
  | (ds, st, some r) => (ds, st, r)
  | (ds, st, none) =>
    match rateLimitStep now flags ds st with
    | (ds, st, some r) => (ds, st, r)
    | (ds, st, none) =>
      match sequenceStep now seq ds st with
      | (ds, st, some r) => (ds, st, r)
      | (ds, st, none) =>
        let (ds, st) := windowStep now windowSize ds st
        anomalyStep now signature ds st

/-- `DefenseSystem.validateConnection`: the single entry point.  Note the
hard-coded all-false "mock attack signature for testing" it passes to the
defense checks.  The final `mapSet` writes the threaded connection state
back under the caller's `ip:port` key, mirroring the in-place mutation of
the shared state object in JS. -/
def validateConnection (now : Int) (ip : Str) (port : Int) (seq ack : Int)
    (windowSize : Rat) (flags : List Str) (ds : DefenseSystemState) :
    DefenseSystemState × ValidationResult :=
  let connectionId := connId ip port
  if isQuarantined ip ds then
    let (action, ds) := createDefenseAction .block (str "IP is quarantined") .high now connectionId ds
    (ds, ⟨false, some action⟩)
  else
    let (st, ds) := getOrCreateConnectionState now ip port ds
    let mockSignature : AttackSignature :=
      { rapidACKs := false, abnormalWindowGrowth := false,
        sequenceGaps := false, suspiciousPattern := false }
    let (ds, st, result) := runDefenseChecks now seq ack windowSize flags mockSignature ds st
    let st := if result.allowed then updateConnectionState st seq ack windowSize else st
    let ds := { ds with connectionStates := mapSet ds.connectionStates connectionId st }
    (ds, result)

/-- A fresh `DefenseSystem` with the given config. -/
def initDefenseSystem (config : DefenseConfig) : DefenseSystemState :=
  { config := config, connectionStates := [], quarantinedIPs := [],
    defenseActions := [] }

/-! ## Spec-side definitions (from the words of the spec, for comparison
with the source-derived definitions above) -/

/-- The adjacent growth steps of a window-size history: one `Bool` per
adjacent pair, true when the later value is more than 1.5x the earlier. -/
def growthFlags : List Rat → List Bool
  | a :: b :: rest =>
    (if b > a * (1.5 : Rat) then true else false) :: growthFlags (b :: rest)
  | _ => []

/-- Spec-side count of growth steps, not requiring them to be
consecutive: among the adjacent pairs of the list, how many grew by more
than 1.5x. -/
def specGrowthStepCount (l : List Rat) : Nat :=
  ((l.zip l.tail).filter
    (fun p => if p.2 > p.1 * (1.5 : Rat) then true else false)).length

/-- Spec reading of the C9 claim: among the last 5 window sizes there is a
run of (at least) 3 CONSECUTIVE steps that each grew by more than 1.5x. -/
def hasRunOfThree : List Bool → Bool
  | a :: b :: c :: rest => (a && b && c) || hasRunOfThree (b :: c :: rest)
  | _ => false

def specThreeConsecutiveGrowth (windowHistory : List Rat) : Bool :=
  if windowHistory.length < 5 then false
  else hasRunOfThree (growthFlags (windowHistory.drop (windowHistory.length - 5)))

/-! ## Concrete instances used by counterexamples and witnesses -/

/-- An `AttackConfig` that is valid except for `windowScale = 5 ∉ [1,4]`. -/
def badScaleConfig : AttackConfig :=
  { targetHost := str "127.0.0.1", targetPort := 3001, attackDuration := 45,
    packetInterval := 50, ackAdvanceSize := 8760, windowScale := 5,
    enableTransfer := false, transferType := .download, transferUrl := none,
    streamId := none, measureSpeed := false }

/-- A fully valid `AttackConfig` (the download demo preset). -/
def demoConfig : AttackConfig :=
  { targetHost := str "127.0.0.1", targetPort := 3001, attackDuration := 45,
    packetInterval := 50, ackAdvanceSize := 8760, windowScale := 2,
    enableTransfer := false, transferType := .download, transferUrl := none,
    streamId := none, measureSpeed := true }

/-- First packet of a two-packet connection trace (ack 0). -/
def gapPacket0 : TrafficPattern :=
  { timestamp := 0, sourceIP := str "9.9.9.9", destinationIP := str "1.1.1.1",
    sourcePort := 1234, destinationPort := 80, sequenceNumber := 0,
    ackNumber := 0, windowSize := 1000, flags := [], dataLength := 0 }

/-- Second packet of the trace: its ack number advances by 1,000,001
bytes — above the source's 1,000,000 threshold but below the claimed
1,048,576 threshold. -/
def gapPacket1 : TrafficPattern :=
  { timestamp := 1, sourceIP := str "9.9.9.9", destinationIP := str "1.1.1.1",
    sourcePort := 1234, destinationPort := 80, sequenceNumber := 0,
    ackNumber := 1000001, windowSize := 1000, flags := [], dataLength := 0 }

/-- An empty traffic-analyzer state. -/
def initTrafficAnalyzer : TrafficAnalyzerState :=
  { trafficHistory := [], windowSizeHistory := [], ackFrequencyMap := [] }

/-- A window-size history whose steps grow, grow, shrink, grow: three of
the four steps exceed 1.5x, but no three consecutive ones do. -/
def bumpyWindowHistory : List Rat := [100, 200, 400, 300, 700]

/-- A traffic-analyzer state holding `bumpyWindowHistory` for one
connection. -/
def bumpyAnalyzerState : TrafficAnalyzerState :=
  { trafficHistory := [], ackFrequencyMap := [],
    windowSizeHistory := [(str "9.9.9.9:1234", bumpyWindowHistory)] }

/-- The client IP used by the defense-system runs below. -/
def probeIP : Str := str "6.6.6.6"

/-- The reason string of a sequence-tracking rejection for a deviation of
199,900 bytes. -/
def seqRejectReason : Str :=
  str "Sequence number deviation too large: " ++ natToStr 199900 ++ str " bytes"

/-- The connection state reached by the runs below, parameterised by
anomaly score and suspicion flag. -/
def c1State (score : Rat) (susp : Bool) : ConnectionState :=
  { ip := probeIP, port := 80, expectedSeq := 100, expectedAck := 0,
    lastValidAck := 0, windowSize := 1000, ackCount := 0, lastACKTime := 0,
    suspicious := susp, quarantined := false, quarantineUntil := 0,
    anomalyScore := score }

/-- The sequence-tracking rejection action logged at time `ts`. -/
def c1Action (ts : Int) : DefenseAction :=
  { dtype := .reject_packet, reason := seqRejectReason, severity := .medium,
    timestamp := ts, connectionId := connId probeIP 80 }

/-- A defense-system state tracking one connection from `probeIP`. -/
def c1DS (score : Rat) (susp : Bool) (actions : List DefenseAction) :
    DefenseSystemState :=
  { config := defaultDefenseConfig,
    connectionStates := [(connId probeIP 80, c1State score susp)],
    quarantinedIPs := [], defenseActions := actions }

/-- Four `validateConnection` calls on a fresh default defense system:
one clean packet, then three packets whose sequence number deviates by
199,900 bytes (each adds 0.25 anomaly score). -/
def c1run1 : DefenseSystemState :=
  (validateConnection 0 probeIP 80 100 0 1000 []
    (initDefenseSystem defaultDefenseConfig)).1

def c1run2 : DefenseSystemState :=
  (validateConnection 1 probeIP 80 200000 0 1000 [] c1run1).1

def c1run3 : DefenseSystemState :=
  (validateConnection 2 probeIP 80 200000 0 1000 [] c1run2).1

def c1run4 : DefenseSystemState :=
  (validateConnection 3 probeIP 80 200000 0 1000 [] c1run3).1

/-- A fifth call from the same IP after the anomaly score has reached the
threshold. -/
def c1run5 : DefenseSystemState × ValidationResult :=
  validateConnection 4 probeIP 80 200000 0 1000 [] c1run4

/-- A defense system whose quarantine set already contains `probeIP`. -/
def quarantinedDS : DefenseSystemState :=
  { config := defaultDefenseConfig, connectionStates := [],
    quarantinedIPs := [probeIP], defenseActions := [] }

/-- A request carrying a browser user agent together with every explicit
attack indicator at once. -/
def mozillaAttackRequest : HttpRequest :=
  { headers :=
      [(str "user-agent", str "Mozilla/5.0 (X11; Linux) OptimisticACK-Attack-Tool"),
       (str "x-simulate-attack", str "optimistic-ack"),
       (str "x-attack-type", str "flood"),
       (str "range", str "bytes=999999999-0")] }

/-! # Theorems -/

/-! ## C7: chunked-download tiling -/

theorem chunkSpans_nil (C S off : Nat) (h : ¬(off < S ∧ 0 < C)) :
    chunkSpans C S off = [] := by
  rw [chunkSpans]
  simp [h]

theorem chunkSpans_cons (C S off : Nat) (h1 : off < S) (h2 : 0 < C) :
    chunkSpans C S off =
      (off, min (off + C - 1) (S - 1)) :: chunkSpans C S (min (off + C) S) := by
  rw [chunkSpans]
  rw [dif_pos (And.intro h1 h2)]
  dsimp only
  have h3 : min (off + C - 1) (S - 1) + 1 = min (off + C) S := by omega
  rw [h3]

theorem chunkSpans_length (C S : Nat) (hC : 0 < C) (off : Nat) :
    (chunkSpans C S off).length = (S - off + C - 1) / C := by
  have H : ∀ n off, S - off ≤ n →
      (chunkSpans C S off).length = (S - off + C - 1) / C := by
    intro n
    induction n with
    | zero =>
      intro off h
      rw [chunkSpans_nil C S off (by omega)]
      have h0 : S - off = 0 := by omega
      rw [h0]
      rw [List.length_nil, Nat.div_eq_of_lt (by omega)]
    | succ n ih =>
      intro off h
      by_cases hoff : off < S
      · rw [chunkSpans_cons C S off hoff hC, List.length_cons]
        rcases le_or_lt S (off + C) with hcase | hcase
        · have hmin : min (off + C) S = S := by omega
          rw [hmin, chunkSpans_nil C S S (by omega), List.length_nil]
          have h1 : 1 * C ≤ S - off + C - 1 := by omega
          have h2 : S - off + C - 1 < 2 * C := by omega
          rw [Nat.div_eq_of_lt_le h1 (by omega)]
        · have hmin : min (off + C) S = off + C := by omega
          rw [hmin, ih (off + C) (by omega)]
          have e1 : S - (off + C) + C - 1 = S - off - 1 := by omega
          have e2 : S - off + C - 1 = (S - off - 1) + C := by omega
          rw [e1, e2, Nat.add_div_right _ hC]
      · rw [chunkSpans_nil C S off (by omega), List.length_nil]
        have h0 : S - off = 0 := by omega
        rw [h0, Nat.div_eq_of_lt (by omega)]
  exact H (S - off) off le_rfl

theorem chunkSpans_flatten (C S : Nat) (hC : 0 < C) (off : Nat) :
    (chunkSpans C S off).flatMap (fun p => List.range' p.1 (p.2 + 1 - p.1)) =
      List.range' off (S - off) := by
  have H : ∀ n off, S - off ≤ n →
      (chunkSpans C S off).flatMap (fun p => List.range' p.1 (p.2 + 1 - p.1)) =
        List.range' off (S - off) := by
    intro n
    induction n with
    | zero =>
      intro off h
      rw [chunkSpans_nil C S off (by omega)]
      have h0 : S - off = 0 := by omega
      rw [h0]
      rfl
    | succ n ih =>
      intro off h
      by_cases hoff : off < S
      · rw [chunkSpans_cons C S off hoff hC, List.flatMap_cons]
        rcases le_or_lt S (off + C) with hcase | hcase
        · have hmin : min (off + C) S = S := by omega
          rw [hmin, chunkSpans_nil C S S (by omega)]
          simp only [List.flatMap_nil, List.append_nil]
          have e1 : min (off + C - 1) (S - 1) + 1 - off = S - off := by omega
          rw [e1]
        · have hmin : min (off + C) S = off + C := by omega
          rw [hmin, ih (off + C) (by omega)]
          have e1 : min (off + C - 1) (S - 1) + 1 - off = C := by omega
          rw [e1]
          have e2 : off + 1 * C = off + C := by omega
          have happ := List.range'_append off C (S - (off + C)) 1
          rw [e2] at happ
          rw [happ]
          have e3 : S - (off + C) + C = S - off := by omega
          rw [e3]
      · rw [chunkSpans_nil C S off (by omega)]
        have h0 : S - off = 0 := by omega
        rw [h0]
        rfl
  exact H (S - off) off le_rfl

theorem chunkSpans_closedForm (C S : Nat) (hC : 0 < C) (j : Nat) :
    chunkSpans C S (j * C) =
      (List.range' j ((S + C - 1) / C - j)).map
        (fun i => (i * C, min ((i + 1) * C - 1) (S - 1))) := by
  have H : ∀ n j, S - j * C ≤ n →
      chunkSpans C S (j * C) =
        (List.range' j ((S + C - 1) / C - j)).map
          (fun i => (i * C, min ((i + 1) * C - 1) (S - 1))) := by
    intro n
    induction n with
    | zero =>
      intro j h
      rw [chunkSpans_nil C S (j * C) (by omega)]
      have h1 : (j + 1) * C = j * C + C := by ring
      have hdiv : (S + C - 1) / C ≤ j := by
        have h2 := (Nat.div_lt_iff_lt_mul hC).mpr
          (show S + C - 1 < (j + 1) * C by omega)
        omega
      rw [Nat.sub_eq_zero_of_le hdiv]
      rfl
    | succ n ih =>
      intro j h
      by_cases hj : j * C < S
      · rw [chunkSpans_cons C S (j * C) hj hC]
        have h1 : (j + 1) * C = j * C + C := by ring
        have hjn : j < (S + C - 1) / C := by
          have h2 := (Nat.le_div_iff_mul_le hC).mpr
            (show (j + 1) * C ≤ S + C - 1 by omega)
          omega
        have hrange : List.range' j ((S + C - 1) / C - j) =
            j :: List.range' (j + 1) ((S + C - 1) / C - (j + 1)) := by
          have e : (S + C - 1) / C - j = ((S + C - 1) / C - (j + 1)) + 1 := by
            omega
          rw [e, List.range'_succ]
        rw [hrange, List.map_cons]
        have hhead : min (j * C + C - 1) (S - 1) = min ((j + 1) * C - 1) (S - 1) := by
          rw [h1]
        rw [hhead]
        congr 1
        rcases le_or_lt S ((j + 1) * C) with hcase | hcase
        · have hmin : min (j * C + C) S = S := by omega
          rw [hmin, chunkSpans_nil C S S (by omega)]
          have h2 : (j + 2) * C = j * C + C + C := by ring
          have hdiv : (S + C - 1) / C ≤ j + 1 := by
            have h3 := (Nat.div_lt_iff_lt_mul hC).mpr
              (show S + C - 1 < (j + 2) * C by omega)
            omega
          rw [Nat.sub_eq_zero_of_le hdiv]
          rfl
        · have hmin : min (j * C + C) S = j * C + C := by omega
          rw [hmin]
          have e : j * C + C = (j + 1) * C := by ring
          rw [e, ih (j + 1) (by omega)]
      · rw [chunkSpans_nil C S (j * C) (by omega)]
        have h1 : (j + 1) * C = j * C + C := by ring
        have hdiv : (S + C - 1) / C ≤ j := by
          have h2 := (Nat.div_lt_iff_lt_mul hC).mpr
            (show S + C - 1 < (j + 1) * C by omega)
          omega
        rw [Nat.sub_eq_zero_of_le hdiv]
        rfl
  exact H (S - j * C) j le_rfl

/-- C7: for a file of `S > 0` bytes and chunk size
`C = max(ackAdvanceSize, 65536)`, the chunked downloader issues exactly
`ceil(S / C)` range requests; their byte spans tile `[0, S-1]` exactly
(the concatenation of the spans is `0, 1, ..., S-1` in order, hence no
overlap and no gap, first start 0, last end `S-1`); and the `i`-th span
is `[i*C, min((i+1)*C - 1, S-1)]`, so every span except possibly the last
has length `C` and each start is the previous end plus one. -/
theorem C7_chunk_tiling (A S C : Nat) (_hS : 0 < S)
    (hCdef : C = downloadChunkSize A) :
    (chunkSpans C S 0).length = (S + C - 1) / C ∧
    (chunkSpans C S 0).flatMap (fun p => List.range' p.1 (p.2 + 1 - p.1)) =
      List.range S ∧
    ∀ i, i < (S + C - 1) / C →
      (chunkSpans C S 0)[i]? = some (i * C, min ((i + 1) * C - 1) (S - 1)) := by
  have hC : 0 < C := by
    rw [hCdef]
    have := Nat.le_max_right A 65536
    unfold downloadChunkSize
    omega
  refine ⟨?_, ?_, ?_⟩
  · have h := chunkSpans_length C S hC 0
    rw [h, Nat.sub_zero]
  · have h := chunkSpans_flatten C S hC 0
    rw [h, Nat.sub_zero, List.range_eq_range']
  · intro i hi
    have hcf := chunkSpans_closedForm C S hC 0
    rw [Nat.zero_mul] at hcf
    rw [hcf, List.getElem?_map, Nat.sub_zero]
    rw [List.getElem?_range' _ _ (by omega)]
    simp

/-- Witness for C7 at `S = 150000`, `ackAdvanceSize = 1` (so `C = 65536`,
3 chunks). -/
theorem C7_chunk_tiling_witness :
    (chunkSpans 65536 150000 0).length = 3 ∧
    (chunkSpans 65536 150000 0)[1]? = some (65536, 131071) ∧
    (chunkSpans 65536 150000 0)[2]? = some (131072, 149999) := by
  have h := C7_chunk_tiling 1 150000 65536 (by decide) (by decide)
  refine ⟨?_, ?_, ?_⟩
  · rw [h.1]
  · have h2 := h.2.2 1 (by decide)
    rw [h2]
    rfl
  · have h2 := h.2.2 2 (by decide)
    rw [h2]
    rfl

/-! ## C3: whitelist short-circuit in `detectExplicitAttack` -/

theorem legitClient_of_marker (ua marker : Str)
    (hm : marker ∈ legitimateAgents) (h : jsIncludes ua marker = true) :
    isLegitimateClient ua = true := by
  unfold isLegitimateClient
  have hany : legitimateAgents.any (fun legit => jsIncludes ua legit) = true :=
    List.any_eq_true.mpr ⟨marker, hm, h⟩
  rw [hany]
  rfl

theorem detectExplicitAttack_of_legit (req : HttpRequest)
    (h : isLegitimateClient (reqUserAgent req) = true) :
    detectExplicitAttack req = none := by
  unfold detectExplicitAttack
  dsimp only
  rw [h]
  simp

/-- C3: any request whose user agent contains a whitelisted marker such as
`Mozilla/` (or whose user agent is empty/blank) is allowed by
`detectExplicitAttack` — `none` = allow — no matter which attack
indicators (simulation header, malicious user-agent substring, suspicious
custom header, malformed or oversized Range header) the same request
carries: the whitelist check runs first and short-circuits every other
rule. -/
theorem C3_whitelist_short_circuit :
    (∀ req : HttpRequest, isLegitimateClient (reqUserAgent req) = true →
        detectExplicitAttack req = none) ∧
    (∀ ua marker : Str, marker ∈ legitimateAgents →
        jsIncludes ua marker = true → isLegitimateClient ua = true) ∧
    (∀ ua : Str, (jsTrim ua).isEmpty = true → isLegitimateClient ua = true) := by
  refine ⟨detectExplicitAttack_of_legit, legitClient_of_marker, ?_⟩
  intro ua h
  unfold isLegitimateClient
  rw [h]
  split <;> rfl

/-- Witness for C3: a request with a `Mozilla/` user agent that
simultaneously carries the attack-simulation header, a malicious
user-agent substring, a suspicious custom header, and a malformed Range
header is still allowed. -/
theorem C3_whitelist_short_circuit_witness :
    detectExplicitAttack mozillaAttackRequest = none := by
  have h := C3_whitelist_short_circuit
  exact h.1 mozillaAttackRequest
    (h.2.1 (reqUserAgent mozillaAttackRequest) (str "Mozilla/") (by decide)
      (by decide))

/-! ## C4: Attack Orchestrator config validation -/

/-- C4 counterexample: a config whose only defect is
`windowScale = 5 ∉ [1,4]` is accepted by the constructor's
`validateConfig` — no configuration error is raised, contradicting the
claim that windowScale is validated at construction time. -/
theorem C4_counterexample :
    validateConfig badScaleConfig = Except.ok badScaleConfig ∧
    ¬(badScaleConfig.windowScale ≤ 4) := by
  constructor
  · rfl
  · intro h
    have : ¬((5 : Rat) ≤ 4) := by norm_num
    exact this h

/-- C4 as amended: construction raises on the first violation among empty
host, port outside 1–65535, non-positive attackDuration, non-positive
packetInterval and non-positive ackAdvanceSize, and succeeds otherwise;
`windowScale` is not checked by `validateConfig` at all (only the
interactive CLI prompt constrains it to (0,4]). -/
theorem C4_amended_validation (cfg : AttackConfig) :
    ((validateConfig cfg).isOk = true ↔
      (¬cfg.targetHost.isEmpty = true ∧ 1 ≤ cfg.targetPort ∧
       cfg.targetPort ≤ 65535 ∧ 0 < cfg.attackDuration ∧
       0 < cfg.packetInterval ∧ 0 < cfg.ackAdvanceSize)) ∧
    (cfg.targetHost.isEmpty = true →
      validateConfig cfg = Except.error (str "Target host is required")) := by
  unfold validateConfig
  constructor
  · split_ifs with h1 h2 h3 h4 h5
    · exact ⟨fun h => absurd h (by decide), fun hconj => (hconj.1 h1).elim⟩
    · refine ⟨fun h => absurd h (by decide), fun hconj => ?_⟩
      obtain ⟨ha, hb, hc, hd, he, hf⟩ := hconj
      rcases h2 with h | h <;> exact (by omega : False).elim
    · refine ⟨fun h => absurd h (by decide), fun hconj => ?_⟩
      obtain ⟨ha, hb, hc, hd, he, hf⟩ := hconj
      exact (by omega : False).elim
    · refine ⟨fun h => absurd h (by decide), fun hconj => ?_⟩
      obtain ⟨ha, hb, hc, hd, he, hf⟩ := hconj
      exact (by omega : False).elim
    · refine ⟨fun h => absurd h (by decide), fun hconj => ?_⟩
      obtain ⟨ha, hb, hc, hd, he, hf⟩ := hconj
      exact (by omega : False).elim
    all_goals
      (refine ⟨fun _ => ?_, fun _ => rfl⟩;
       push_neg at h2;
       exact ⟨h1, by omega, by omega, by omega, by omega, by omega⟩)
  · intro h1
    rw [if_pos h1]

/-- Witness for C4 (amended): the valid demo config is accepted, and a
config differing only in an out-of-range port is rejected. -/
theorem C4_amended_validation_witness :
    (validateConfig demoConfig).isOk = true ∧
    (validateConfig { demoConfig with targetPort := 0 }).isOk = false := by
  constructor
  · exact (C4_amended_validation demoConfig).1.mpr (by decide)
  · have h := (C4_amended_validation { demoConfig with targetPort := 0 }).1
    by_contra hc
    have h2 := h.mp (by simpa using hc)
    have he : ({ demoConfig with targetPort := 0 } : AttackConfig).targetPort = 0 := rfl
    have h3 := h2.2.1
    rw [he] at h3
    exact absurd h3 (by decide)

/-! ## C10: unvalidated range handler behind the whitelist -/

/-- C10: `handleRangeRequest` always answers 206 with `Content-Range` and
`Content-Length` computed directly from the raw parsed header values and
performs no validation against the file: an `end` beyond the file size is
served as-is, `end < start` yields a negative `Content-Length`, and an
unparsable `start` propagates `NaN` into the headers; and because the
middleware's abnormal-range rejection runs only after the
legitimate-client whitelist short-circuit, any request with a browser-like
user agent reaches this handler even when defense is enabled. -/
theorem C10_range_handler_unvalidated :
    (∀ (size : Int) (range : Str), (handleRangeRequest size range).status = 206) ∧
    (handleRangeRequest 1000 (str "bytes=0-5000")).contentRange =
      str "bytes 0-5000/1000" ∧
    (handleRangeRequest 1000 (str "bytes=0-5000")).contentLength = some 5001 ∧
    (handleRangeRequest 1000 (str "bytes=500-100")).contentLength = some (-399) ∧
    (handleRangeRequest 1000 (str "bytes=abc-10")).contentRange =
      str "bytes NaN-10/1000" ∧
    (handleRangeRequest 1000 (str "bytes=abc-10")).contentLength = none ∧
    (∀ (hs : List (Str × Str)) (ua : Str), jsIncludes ua (str "Mozilla/") = true →
      detectExplicitAttack { headers := (str "user-agent", ua) :: hs } = none) := by
  refine ⟨fun _ _ => rfl, by decide, by decide, by decide, by decide, by decide, ?_⟩
  intro hs ua h
  apply detectExplicitAttack_of_legit
  have hua : reqUserAgent { headers := (str "user-agent", ua) :: hs } = ua := by
    unfold reqUserAgent headerValue
    simp [List.find?]
  rw [hua]
  exact legitClient_of_marker ua (str "Mozilla/") (by decide) h

/-- Witness for C10: the whitelist conjunct instantiated at a request
whose Range header is the abnormal `bytes=500-100`. -/
theorem C10_range_handler_unvalidated_witness :
    detectExplicitAttack
      { headers := [(str "user-agent", str "Mozilla/5.0"),
                    (str "range", str "bytes=500-100")] } = none := by
  have h := C10_range_handler_unvalidated
  exact h.2.2.2.2.2.2 [(str "range", str "bytes=500-100")]
    (str "Mozilla/5.0") (by decide)

/-! ## C9: abnormal window growth -/

theorem growthSteps_eq_specCount (l : List Rat) :
    growthSteps l = specGrowthStepCount l := by
  unfold specGrowthStepCount
  induction l with
  | nil => rfl
  | cons a t ih =>
    cases t with
    | nil => rfl
    | cons b rest =>
      rw [growthSteps, ih]
      simp only [List.tail_cons, List.zip_cons_cons, List.filter_cons]
      by_cases h : b > a * (1.5 : Rat)
      · simp [h]
        omega
      · simp [h]

/-- C9 counterexample: on the window-size history 100, 200, 400, 300, 700
(steps grow x2, x2, shrink, grow x2.33 — three growth steps but never
three consecutive ones), `detectAbnormalWindowGrowth` reports `true`,
while the claim's "at least 3 consecutive steps" condition is false. -/
theorem C9_counterexample :
    detectAbnormalWindowGrowth bumpyAnalyzerState (str "9.9.9.9:1234") = true ∧
    specThreeConsecutiveGrowth bumpyWindowHistory = false := by
  constructor
  · norm_num [detectAbnormalWindowGrowth, bumpyAnalyzerState,
      bumpyWindowHistory, mapGetD, growthSteps, List.find?]
  · norm_num [specThreeConsecutiveGrowth, bumpyWindowHistory, growthFlags,
      hasRunOfThree]

/-- C9 as amended: for every connection record, `abnormalWindowGrowth` is
true exactly when at least 5 window sizes are on record and, among the 4
adjacent steps of the last 5 recorded window sizes, at least 3 steps —
anywhere among them, not necessarily consecutive — each grew by more than
1.5x the previous value (in particular it is false when fewer than 5
samples are on record). -/
theorem C9_amended_growth (st : TrafficAnalyzerState) (key : Str) :
    detectAbnormalWindowGrowth st key = true ↔
      (5 ≤ (mapGetD st.windowSizeHistory key []).length ∧
       3 ≤ specGrowthStepCount
            ((mapGetD st.windowSizeHistory key []).drop
              ((mapGetD st.windowSizeHistory key []).length - 5))) := by
  unfold detectAbnormalWindowGrowth
  by_cases h : (mapGetD st.windowSizeHistory key []).length < 5
  · rw [if_pos h]
    constructor
    · intro habs
      exact absurd habs (by decide)
    · rintro ⟨h5, -⟩
      exact (by omega : False).elim
  · rw [if_neg h]
    rw [← growthSteps_eq_specCount]
    rw [decide_eq_true_eq]
    constructor
    · intro hg
      exact ⟨by omega, hg⟩
    · intro hg
      exact hg.2

/-! ## C5: sequence-gap detection -/

theorem updateWindowSizeHistory_trafficHistory (st : TrafficAnalyzerState)
    (p : TrafficPattern) :
    (updateWindowSizeHistory st p).trafficHistory = st.trafficHistory := rfl

theorem updateACKFrequency_trafficHistory (st : TrafficAnalyzerState)
    (p : TrafficPattern) :
    (updateACKFrequency st p).trafficHistory = st.trafficHistory := by
  unfold updateACKFrequency
  split <;> rfl

theorem getLast?_drop {α : Type} (l : List α) (k : Nat) (h : l.drop k ≠ []) :
    (l.drop k).getLast? = l.getLast? := by
  induction k generalizing l with
  | zero => rfl
  | succ k ih =>
    cases l with
    | nil => simp at h
    | cons a t =>
      rw [List.drop_succ_cons] at h ⊢
      rw [ih t h]
      cases t with
      | nil => simp at h
      | cons b t2 => rw [List.getLast?_cons_cons]

theorem detectSequenceGaps_append (hist : List TrafficPattern)
    (packet : TrafficPattern) :
    detectSequenceGaps (hist ++ [packet]) packet = true ↔
      ∃ prev,
        (hist.filter (fun p =>
          p.sourceIP == packet.sourceIP && p.sourcePort == packet.sourcePort)).getLast?
          = some prev ∧
        1000000 < (packet.ackNumber - prev.ackNumber).natAbs := by
  unfold detectSequenceGaps
  dsimp only
  set pred := fun p : TrafficPattern =>
    p.sourceIP == packet.sourceIP && p.sourcePort == packet.sourcePort with hpred
  have hself : pred packet = true := by
    rw [hpred]
    simp
  have hfp : (hist ++ [packet]).filter pred = hist.filter pred ++ [packet] := by
    rw [List.filter_append]
    congr 1
    simp [hself]
  rw [hfp]
  set L := hist.filter pred with hL
  have hdrop : (L ++ [packet]).drop ((L ++ [packet]).length - 10) =
      L.drop (L.length + 1 - 10) ++ [packet] := by
    rw [List.length_append, List.length_singleton,
      List.drop_append_of_le_length (by omega)]
  rw [hdrop]
  by_cases hLnil : L = []
  · rw [hLnil]
    simp
  · set L' := L.drop (L.length + 1 - 10) with hL'
    have hLpos : 0 < L.length := List.length_pos.mpr hLnil
    have hL'ne : L' ≠ [] := by
      rw [hL']
      intro hcontra
      rw [List.drop_eq_nil_iff] at hcontra
      omega
    have hL'pos : 0 < L'.length := List.length_pos.mpr hL'ne
    have hlen : ¬ ((L' ++ [packet]).length < 2) := by
      rw [List.length_append, List.length_singleton]
      omega
    rw [if_neg hlen]
    have hidx : (L' ++ [packet]).length - 2 = L'.length - 1 := by
      rw [List.length_append, List.length_singleton]
      omega
    rw [hidx, List.getElem?_append_left (by omega), ← List.getLast?_eq_getElem?,
      getLast?_drop L _ hL'ne]
    cases hsome : L.getLast? with
    | none =>
      rw [List.getLast?_eq_none_iff] at hsome
      exact absurd hsome hLnil
    | some prev =>
      simp [decide_eq_true_eq]

/-- C5 counterexample: two same-connection packets whose ack numbers
differ by 1,000,001 — at most the claimed 1,048,576 threshold — still set
the `sequenceGaps` signature bit, because the source compares the gap
against 1,000,000, not 1,048,576. -/
theorem C5_counterexample :
    (analyzePacket 1 (analyzePacket 0 initTrafficAnalyzer gapPacket0).1
        gapPacket1).2.sequenceGaps = true ∧
    (gapPacket1.ackNumber - gapPacket0.ackNumber).natAbs ≤ 1048576 := by
  constructor
  · decide
  · decide

/-- C5 as amended: for a packet fed to the analyzer (with fewer than
10,000 packets on record, so no history trimming interferes), the
`sequenceGaps` bit is true exactly when the packet has a preceding
same-connection packet and the absolute difference of their ack numbers
exceeds 1,000,000 bytes; with no preceding same-connection packet it is
false. -/
theorem C5_amended_gap (now : Int) (st : TrafficAnalyzerState)
    (packet : TrafficPattern) (hlen : st.trafficHistory.length < 10000) :
    (analyzePacket now st packet).2.sequenceGaps = true ↔
      ∃ prev,
        (st.trafficHistory.filter (fun p =>
          p.sourceIP == packet.sourceIP && p.sourcePort == packet.sourcePort)).getLast?
          = some prev ∧
        1000000 < (packet.ackNumber - prev.ackNumber).natAbs := by
  have e1 : (updateACKFrequency (updateWindowSizeHistory
      { st with trafficHistory := st.trafficHistory ++ [packet] } packet)
      packet).trafficHistory = st.trafficHistory ++ [packet] := by
    rw [updateACKFrequency_trafficHistory, updateWindowSizeHistory_trafficHistory]
  have h2 : (analyzePacket now st packet).2.sequenceGaps
      = detectSequenceGaps (st.trafficHistory ++ [packet]) packet := by
    unfold analyzePacket
    dsimp only
    have hcond : ¬ ((updateACKFrequency (updateWindowSizeHistory
        { st with trafficHistory := st.trafficHistory ++ [packet] } packet)
        packet).trafficHistory.length > 10000) := by
      rw [e1, List.length_append, List.length_singleton]
      omega
    rw [if_neg hcond]
    unfold detectAttackSignatures
    dsimp only
    rw [e1]
  rw [h2]
  exact detectSequenceGaps_append st.trafficHistory packet

/-- Witness for C5 (amended): the 1,000,001-byte gap between the two
concrete packets is above the 1,000,000 threshold, so the bit is set. -/
theorem C5_amended_gap_witness :
    (analyzePacket 1 (analyzePacket 0 initTrafficAnalyzer gapPacket0).1
        gapPacket1).2.sequenceGaps = true := by
  have hst : (analyzePacket 0 initTrafficAnalyzer gapPacket0).1.trafficHistory
      = [gapPacket0] := rfl
  apply (C5_amended_gap 1 _ gapPacket1 (by rw [hst]; decide)).mpr
  refine ⟨gapPacket0, ?_, by decide⟩
  rw [hst]
  rfl

/-! ## C6: connection-id mismatch in the Connection Analyzer -/

theorem genId_ne_freshId (c : ConnectionData) (now : Int) (rand : Str)
    (hrand : rand.count '_' = 0) (hnow : (intToStr now).count '_' = 0) :
    ¬ generateConnectionId c = freshConnectionId now rand := by
  intro h
  have hc := congrArg (List.count '_') h
  have h1 : List.count '_' (str "_") = 1 := by decide
  rw [generateConnectionId, freshConnectionId] at hc
  simp only [List.count_append, h1, hrand, hnow] at hc
  omega

theorem setBytesOnMatch_none (id : Str) (bytes : Int)
    (conns : List ConnectionData)
    (h : ∀ c ∈ conns, ¬ generateConnectionId c = id) :
    setBytesOnMatch id bytes conns = none := by
  induction conns with
  | nil => rfl
  | cons c rest ih =>
    unfold setBytesOnMatch
    rw [if_neg]
    · rw [ih (fun c hc => h c (List.mem_cons_of_mem _ hc))]
    · simp only [beq_iff_eq]
      exact h c (List.mem_cons_self _ _)

theorem updateBytesInEntries_none (id : Str) (bytes : Int)
    (entries : List (Str × List ConnectionData))
    (h : ∀ e ∈ entries, ∀ c ∈ e.2, ¬ generateConnectionId c = id) :
    updateBytesInEntries id bytes entries = none := by
  induction entries with
  | nil => rfl
  | cons e rest ih =>
    unfold updateBytesInEntries
    rw [setBytesOnMatch_none id bytes e.2 (h e (List.mem_cons_self _ _))]
    rw [ih (fun e' he' => h e' (List.mem_cons_of_mem _ he'))]

theorem setDurationOnMatch_none (now : Int) (id : Str)
    (conns : List ConnectionData)
    (h : ∀ c ∈ conns, ¬ generateConnectionId c = id) :
    setDurationOnMatch now id conns = none := by
  induction conns with
  | nil => rfl
  | cons c rest ih =>
    unfold setDurationOnMatch
    rw [if_neg]
    · rw [ih (fun c hc => h c (List.mem_cons_of_mem _ hc))]
    · simp only [beq_iff_eq]
      exact h c (List.mem_cons_self _ _)

theorem setDurationInEntries_none (now : Int) (id : Str)
    (entries : List (Str × List ConnectionData))
    (h : ∀ e ∈ entries, ∀ c ∈ e.2, ¬ generateConnectionId c = id) :
    setDurationInEntries now id entries = none := by
  induction entries with
  | nil => rfl
  | cons e rest ih =>
    unfold setDurationInEntries
    rw [setDurationOnMatch_none now id e.2 (h e (List.mem_cons_self _ _))]
    rw [ih (fun e' he' => h e' (List.mem_cons_of_mem _ he'))]

/-- C6 (code bug): the id `logConnection` returns is
`Date.now()_<random>` (one underscore, given the base-36 random suffix),
while `updateConnectionBytes`/`closeConnection` search by recomputing
`ip_timestamp_type` ids (at least two underscores), so the lookup can
never succeed: `updateConnectionBytes` with a returned id is a complete
no-op — no bytes are recorded and no `large_download` flag is ever
appended, whatever `bytes` is — and `closeConnection` never records a
duration.  `logConnection` does return exactly that fresh id. -/
theorem C6_returned_id_never_found (now now2 bytes : Int) (rand ip : Str)
    (ctype : ConnType) (resource userAgent : Option Str)
    (st : ConnectionAnalyzerState)
    (hrand : rand.count '_' = 0) (hnow : (intToStr now).count '_' = 0) :
    (logConnection now rand ip ctype resource userAgent st).1 =
      freshConnectionId now rand ∧
    updateConnectionBytes now2 (freshConnectionId now rand) bytes st = st ∧
    (closeConnection now2 (freshConnectionId now rand) st).connections =
      st.connections := by
  refine ⟨rfl, ?_, ?_⟩
  · unfold updateConnectionBytes
    rw [updateBytesInEntries_none _ _ _
      (fun e _ c _ => genId_ne_freshId c now rand hrand hnow)]
  · unfold closeConnection
    dsimp only
    rw [setDurationInEntries_none _ _ _
      (fun e _ c _ => genId_ne_freshId c now rand hrand hnow)]

/-- Witness for C6: a concrete logged connection; updating bytes with the
very id `logConnection` returned changes nothing — in particular a 200 MB
update produces no `large_download` flag. -/
theorem C6_returned_id_never_found_witness :
    updateConnectionBytes 1700000000500
      (logConnection 1700000000000 (str "k3j9x2m1q") (str "1.2.3.4")
        .file_download none none
        { connections := [], activeConnections := [], suspiciousActivity := [] }).1
      209715200
      (logConnection 1700000000000 (str "k3j9x2m1q") (str "1.2.3.4")
        .file_download none none
        { connections := [], activeConnections := [], suspiciousActivity := [] }).2
    = (logConnection 1700000000000 (str "k3j9x2m1q") (str "1.2.3.4")
        .file_download none none
        { connections := [], activeConnections := [], suspiciousActivity := [] }).2 := by
  have hid0 : (logConnection 1700000000000 (str "k3j9x2m1q") (str "1.2.3.4")
      .file_download none none
      { connections := [], activeConnections := [],
        suspiciousActivity := [] }).1 =
      freshConnectionId 1700000000000 (str "k3j9x2m1q") := rfl
  rw [hid0]
  exact (C6_returned_id_never_found 1700000000000 1700000000500 209715200
    (str "k3j9x2m1q") (str "1.2.3.4") .file_download none none
    (logConnection 1700000000000 (str "k3j9x2m1q") (str "1.2.3.4")
      .file_download none none
      { connections := [], activeConnections := [],
        suspiciousActivity := [] }).2
    (by decide) (by decide)).2.1

/-! ## C8: playlist generation / parsing round trip -/

theorem jsSplit_cons (c x : Char) (xs : Str) :
    jsSplit c (x :: xs) =
      match jsSplit c xs with
      | [] => if x = c then [[], []] else [[x]]
      | h :: t => if x = c then [] :: h :: t else (x :: h) :: t := rfl

theorem jsSplit_ne_nil (c : Char) (s : Str) : jsSplit c s ≠ [] := by
  cases s with
  | nil => simp [jsSplit]
  | cons x xs =>
    rw [jsSplit_cons]
    cases h : jsSplit c xs with
    | nil => dsimp only; split <;> simp
    | cons hd tl => dsimp only; split <;> simp

theorem jsSplit_no_sep (c : Char) (s : Str) (h : c ∉ s) :
    jsSplit c s = [s] := by
  induction s with
  | nil => rfl
  | cons x xs ih =>
    have hx : ¬ x = c := fun he => h (he ▸ List.mem_cons_self x xs)
    rw [jsSplit_cons, ih (fun hm => h (List.mem_cons_of_mem x hm))]
    dsimp only
    simp [hx]

theorem jsSplit_append_cons (c : Char) (pre rest : Str) (h : c ∉ pre) :
    jsSplit c (pre ++ c :: rest) = pre :: jsSplit c rest := by
  induction pre with
  | nil =>
    rw [List.nil_append, jsSplit_cons]
    cases hr : jsSplit c rest with
    | nil => exact absurd hr (jsSplit_ne_nil c rest)
    | cons hd tl => dsimp only; simp
  | cons x pre' ih =>
    have hx : ¬ x = c := fun he => h (he ▸ List.mem_cons_self x pre')
    rw [List.cons_append, jsSplit_cons, ih (fun hm => h (List.mem_cons_of_mem x hm))]
    dsimp only
    simp [hx]

theorem playlistFoldl (segs : List Str) (acc : Str) :
    segs.foldl
      (fun a segment => a ++ str "#EXTINF:10.0,\n" ++ segment ++ str "\n") acc =
    acc ++ segs.flatMap
      (fun segment => str "#EXTINF:10.0,\n" ++ segment ++ str "\n") := by
  induction segs generalizing acc with
  | nil => simp
  | cons s rest ih =>
    rw [List.foldl_cons, ih, List.flatMap_cons]
    simp [List.append_assoc]

theorem linesOfTail (segs : List Str) (h : ∀ s ∈ segs, '\n' ∉ s) :
    jsSplit '\n'
      (segs.flatMap (fun s => str "#EXTINF:10.0,\n" ++ s ++ str "\n") ++
        str "#EXT-X-ENDLIST") =
    segs.flatMap (fun s => [str "#EXTINF:10.0,", s]) ++ [str "#EXT-X-ENDLIST"] := by
  induction segs with
  | nil =>
    rw [List.flatMap_nil, List.nil_append, jsSplit_no_sep _ _ (by decide)]
    rfl
  | cons s rest ih =>
    rw [List.flatMap_cons]
    have e1 : (str "#EXTINF:10.0,\n" ++ s ++ str "\n" ++
          rest.flatMap (fun s => str "#EXTINF:10.0,\n" ++ s ++ str "\n")) ++
          str "#EXT-X-ENDLIST" =
        str "#EXTINF:10.0," ++ '\n' ::
          (s ++ '\n' ::
            (rest.flatMap (fun s => str "#EXTINF:10.0,\n" ++ s ++ str "\n") ++
              str "#EXT-X-ENDLIST")) := by
      simp [str, List.append_assoc]
    rw [e1, jsSplit_append_cons _ _ _ (by decide),
      jsSplit_append_cons _ _ _ (h s (List.mem_cons_self _ _)),
      ih (fun x hx => h x (List.mem_cons_of_mem _ hx))]
    rfl

theorem keepLine_seg (s : Str) (htrim : jsTrim s = s) (hne : s ≠ [])
    (hhash : jsStartsWith s (str "#") = false) : keepLine s = true := by
  unfold keepLine
  rw [htrim, hhash]
  simp [List.isEmpty_iff, hne]

theorem parseTail (segs : List Str)
    (h : ∀ s ∈ segs, jsTrim s = s ∧ s ≠ [] ∧ jsStartsWith s (str "#") = false) :
    ((segs.flatMap (fun s => [str "#EXTINF:10.0,", s]) ++
        [str "#EXT-X-ENDLIST"]).filter keepLine).map jsTrim = segs := by
  induction segs with
  | nil => rfl
  | cons s rest ih =>
    obtain ⟨h1, h2, h3⟩ := h s (List.mem_cons_self _ _)
    rw [List.flatMap_cons]
    have e : (([str "#EXTINF:10.0,", s] ++
        rest.flatMap (fun s => [str "#EXTINF:10.0,", s])) ++
        [str "#EXT-X-ENDLIST"]) =
        str "#EXTINF:10.0," :: s ::
          (rest.flatMap (fun s => [str "#EXTINF:10.0,", s]) ++
            [str "#EXT-X-ENDLIST"]) := by
      simp
    rw [e]
    rw [List.filter_cons_of_neg (by rw [show keepLine (str "#EXTINF:10.0,") = false from by decide]; simp)]
    rw [List.filter_cons_of_pos (keepLine_seg s h1 h2 h3)]
    rw [List.map_cons, h1, ih (fun x hx => h x (List.mem_cons_of_mem _ hx))]

theorem ts_ne_nil (s : Str) (h : jsEndsWith s (str ".ts") = true) : s ≠ [] := by
  intro hs
  rw [hs] at h
  exact absurd h (by decide)

/-- C8: for every stream directory listing, the generated playlist's lines
are exactly the four header lines, then one `#EXTINF:10.0,` line per
`.ts` segment in filename-sorted order each followed by the exact
filename, terminated by `#EXT-X-ENDLIST`; parsing that playlist with the
orchestrator's parser recovers exactly the sorted segment names in order.
For a non-existent stream directory the playlist is the four header lines
plus `#EXT-X-ENDLIST` and parses to the empty list.  (Hypothesis: the
`.ts` file names contain no newline, are their own trim, and do not start
with `#` — true of the fixture names `segmentNNN.ts`.) -/
theorem C8_playlist_roundtrip (files : List Str)
    (hgood : ∀ f ∈ files, jsEndsWith f (str ".ts") = true →
      ('\n' ∉ f ∧ jsTrim f = f ∧ jsStartsWith f (str "#") = false)) :
    jsSplit '\n' (generateHLSPlaylist true files) =
      ([str "#EXTM3U", str "#EXT-X-VERSION:3", str "#EXT-X-TARGETDURATION:10",
        str "#EXT-X-MEDIA-SEQUENCE:0"] ++
       ((files.filter (fun f => jsEndsWith f (str ".ts"))).mergeSort
          lexLe).flatMap (fun s => [str "#EXTINF:10.0,", s]) ++
       [str "#EXT-X-ENDLIST"]) ∧
    parsePlaylist (generateHLSPlaylist true files) =
      (files.filter (fun f => jsEndsWith f (str ".ts"))).mergeSort lexLe ∧
    generateHLSPlaylist false files = emptyPlaylist ∧
    jsSplit '\n' emptyPlaylist =
      [str "#EXTM3U", str "#EXT-X-VERSION:3", str "#EXT-X-TARGETDURATION:10",
       str "#EXT-X-MEDIA-SEQUENCE:0", str "#EXT-X-ENDLIST"] ∧
    parsePlaylist emptyPlaylist = [] := by
  have hsegsGood : ∀ s ∈ (files.filter
      (fun f => jsEndsWith f (str ".ts"))).mergeSort lexLe,
      '\n' ∉ s ∧ jsTrim s = s ∧ jsStartsWith s (str "#") = false ∧ s ≠ [] := by
    intro s hs
    rw [List.mem_mergeSort] at hs
    have hm := List.mem_filter.mp hs
    obtain ⟨h1, h2, h3⟩ := hgood s hm.1 hm.2
    exact ⟨h1, h2, h3, ts_ne_nil s hm.2⟩
  have hplay : generateHLSPlaylist true files =
      hlsHeader ++
        ((files.filter (fun f => jsEndsWith f (str ".ts"))).mergeSort
          lexLe).flatMap
          (fun s => str "#EXTINF:10.0,\n" ++ s ++ str "\n") ++
        str "#EXT-X-ENDLIST" := by
    unfold generateHLSPlaylist
    rw [if_neg (by simp)]
    dsimp only
    rw [playlistFoldl]
  have hlines : jsSplit '\n' (generateHLSPlaylist true files) =
      ([str "#EXTM3U", str "#EXT-X-VERSION:3", str "#EXT-X-TARGETDURATION:10",
        str "#EXT-X-MEDIA-SEQUENCE:0"] ++
       ((files.filter (fun f => jsEndsWith f (str ".ts"))).mergeSort
          lexLe).flatMap (fun s => [str "#EXTINF:10.0,", s]) ++
       [str "#EXT-X-ENDLIST"]) := by
    rw [hplay]
    have e : hlsHeader ++
        ((files.filter (fun f => jsEndsWith f (str ".ts"))).mergeSort
          lexLe).flatMap
          (fun s => str "#EXTINF:10.0,\n" ++ s ++ str "\n") ++
        str "#EXT-X-ENDLIST" =
        str "#EXTM3U" ++ '\n' ::
          (str "#EXT-X-VERSION:3" ++ '\n' ::
            (str "#EXT-X-TARGETDURATION:10" ++ '\n' ::
              (str "#EXT-X-MEDIA-SEQUENCE:0" ++ '\n' ::
                (((files.filter (fun f => jsEndsWith f (str ".ts"))).mergeSort
                    lexLe).flatMap
                    (fun s => str "#EXTINF:10.0,\n" ++ s ++ str "\n") ++
                  str "#EXT-X-ENDLIST")))) := by
      simp [hlsHeader, str, List.append_assoc]
    rw [e, jsSplit_append_cons _ _ _ (by decide),
      jsSplit_append_cons _ _ _ (by decide),
      jsSplit_append_cons _ _ _ (by decide),
      jsSplit_append_cons _ _ _ (by decide),
      linesOfTail _ (fun s hs => (hsegsGood s hs).1)]
    rfl
  refine ⟨hlines, ?_, rfl, by decide, by decide⟩
  unfold parsePlaylist
  rw [hlines]
  rw [List.append_assoc, List.filter_append]
  have hhdr : List.filter keepLine
      [str "#EXTM3U", str "#EXT-X-VERSION:3", str "#EXT-X-TARGETDURATION:10",
       str "#EXT-X-MEDIA-SEQUENCE:0"] = [] := by decide
  rw [hhdr, List.nil_append]
  exact parseTail _ (fun s hs =>
    ⟨(hsegsGood s hs).2.1, (hsegsGood s hs).2.2.2, (hsegsGood s hs).2.2.1⟩)

/-- Witness for C8 at the spec's example directory listing
`segment000.ts`, `segment001.ts`, `segment002.ts`. -/
theorem C8_playlist_roundtrip_witness :
    parsePlaylist (generateHLSPlaylist true
      [str "segment002.ts", str "segment000.ts", str "segment001.ts"]) =
      [str "segment000.ts", str "segment001.ts", str "segment002.ts"] := by
  have h := C8_playlist_roundtrip
    [str "segment002.ts", str "segment000.ts", str "segment001.ts"]
    (by decide)
  rw [h.2.1]
  have hf : List.filter (fun f => jsEndsWith f (str ".ts"))
      [str "segment002.ts", str "segment000.ts", str "segment001.ts"] =
      [str "segment002.ts", str "segment000.ts", str "segment001.ts"] := by
    decide
  rw [hf]
  simp +decide [List.mergeSort, lexLe]

/-! ## C1 and C2: the Defense System -/

theorem createDefenseAction_quarantinedIPs (dtype : DActionType)
    (reason : Str) (severity : Severity) (now : Int) (connectionId : Str)
    (ds : DefenseSystemState) :
    ((createDefenseAction dtype reason severity now connectionId ds).2).quarantinedIPs =
      ds.quarantinedIPs := rfl

theorem ackValidationStep_quarantinedIPs (now ack : Int) (flags : List Str)
    (ds : DefenseSystemState) (st : ConnectionState) :
    ((ackValidationStep now ack flags ds st).1).quarantinedIPs =
      ds.quarantinedIPs := by
  unfold ackValidationStep
  dsimp only
  split
  · split <;> rfl
  · rfl

theorem rateLimitStep_quarantinedIPs (now : Int) (flags : List Str)
    (ds : DefenseSystemState) (st : ConnectionState) :
    ((rateLimitStep now flags ds st).1).quarantinedIPs =
      ds.quarantinedIPs := by
  unfold rateLimitStep
  dsimp only
  split
  · split <;> rfl
  · rfl

theorem sequenceStep_quarantinedIPs (now seq : Int)
    (ds : DefenseSystemState) (st : ConnectionState) :
    ((sequenceStep now seq ds st).1).quarantinedIPs = ds.quarantinedIPs := by
  unfold sequenceStep
  dsimp only
  split
  · split <;> rfl
  · rfl

theorem windowStep_quarantinedIPs (now : Int) (windowSize : Rat)
    (ds : DefenseSystemState) (st : ConnectionState) :
    ((windowStep now windowSize ds st).1).quarantinedIPs =
      ds.quarantinedIPs := by
  unfold windowStep
  dsimp only
  split
  · split <;> rfl
  · rfl

theorem detectAnomalies_mock :
    detectAnomalies
      { rapidACKs := false, abnormalWindowGrowth := false,
        sequenceGaps := false, suspiciousPattern := false } = (false, []) := rfl

/-- With the all-false mock signature, the anomaly-detection step always
allows: its quarantine escalation — the only call site of `quarantineIP`
reachable from `validateConnection` — is dead code. -/
theorem anomalyStep_mock (now : Int) (ds : DefenseSystemState)
    (st : ConnectionState) :
    anomalyStep now
      { rapidACKs := false, abnormalWindowGrowth := false,
        sequenceGaps := false, suspiciousPattern := false } ds st =
      (ds, st, ⟨true, none⟩) := by
  unfold anomalyStep
  rw [detectAnomalies_mock]
  split <;> rfl

theorem runDefenseChecks_mock_quarantinedIPs (now seq ack : Int)
    (windowSize : Rat) (flags : List Str) (ds : DefenseSystemState)
    (st : ConnectionState) :
    ((runDefenseChecks now seq ack windowSize flags
      { rapidACKs := false, abnormalWindowGrowth := false,
        sequenceGaps := false, suspiciousPattern := false } ds st).1).quarantinedIPs =
      ds.quarantinedIPs := by
  unfold runDefenseChecks
  rcases h1 : ackValidationStep now ack flags ds st with ⟨ds1, st1, r1⟩
  have hq1 : ds1.quarantinedIPs = ds.quarantinedIPs := by
    have := ackValidationStep_quarantinedIPs now ack flags ds st
    rw [h1] at this
    exact this
  cases r1 with
  | some r => exact hq1
  | none =>
    dsimp only
    rcases h2 : rateLimitStep now flags ds1 st1 with ⟨ds2, st2, r2⟩
    have hq2 : ds2.quarantinedIPs = ds1.quarantinedIPs := by
      have := rateLimitStep_quarantinedIPs now flags ds1 st1
      rw [h2] at this
      exact this
    cases r2 with
    | some r => rw [hq2, hq1]
    | none =>
      dsimp only
      rcases h3 : sequenceStep now seq ds2 st2 with ⟨ds3, st3, r3⟩
      have hq3 : ds3.quarantinedIPs = ds2.quarantinedIPs := by
        have := sequenceStep_quarantinedIPs now seq ds2 st2
        rw [h3] at this
        exact this
      cases r3 with
      | some r => rw [hq3, hq2, hq1]
      | none =>
        dsimp only
        rcases h4 : windowStep now windowSize ds3 st3 with ⟨ds4, st4⟩
        have hq4 : ds4.quarantinedIPs = ds3.quarantinedIPs := by
          have := windowStep_quarantinedIPs now windowSize ds3 st3
          rw [h4] at this
          exact this
        rw [anomalyStep_mock]
        dsimp only
        rw [hq4, hq3, hq2, hq1]

theorem validateConnection_quarantinedIPs (now : Int) (ip : Str) (port : Int)
    (seq ack : Int) (windowSize : Rat) (flags : List Str)
    (ds : DefenseSystemState) :
    ((validateConnection now ip port seq ack windowSize flags ds).1).quarantinedIPs =
      ds.quarantinedIPs := by
  unfold validateConnection
  dsimp only
  split
  · rfl
  · rcases hg : getOrCreateConnectionState now ip port ds with ⟨st0, ds0⟩
    have hq0 : ds0.quarantinedIPs = ds.quarantinedIPs := by
      unfold getOrCreateConnectionState at hg
      dsimp only at hg
      rcases hm : mapGet? ds.connectionStates (connId ip port) with - | st'
      · rw [hm] at hg
        dsimp only at hg
        rw [← (Prod.mk.injEq _ _ _ _).mp hg |>.2]
      · rw [hm] at hg
        dsimp only at hg
        rw [← (Prod.mk.injEq _ _ _ _).mp hg |>.2]
    rcases hr : runDefenseChecks now seq ack windowSize flags
        { rapidACKs := false, abnormalWindowGrowth := false,
          sequenceGaps := false, suspiciousPattern := false } ds0 st0 with ⟨ds1, st1, res⟩
    have hq1 : ds1.quarantinedIPs = ds0.quarantinedIPs := by
      have := runDefenseChecks_mock_quarantinedIPs now seq ack windowSize flags ds0 st0
      rw [hr] at this
      exact this
    dsimp only
    rw [hq1, hq0]

/-- A quarantined IP is rejected unconditionally with the literal
"IP is quarantined" block action, whatever the packet carries. -/
theorem validateConnection_quarantined (now : Int) (ip : Str) (port : Int)
    (seq ack : Int) (windowSize : Rat) (flags : List Str)
    (ds : DefenseSystemState) (h : isQuarantined ip ds = true) :
    (validateConnection now ip port seq ack windowSize flags ds).2 =
      { allowed := false,
        action := some
          { dtype := .block, reason := str "IP is quarantined",
            severity := .high, timestamp := now,
            connectionId := connId ip port } } := by
  unfold validateConnection
  dsimp only
  rw [if_pos h]
  rfl

/-- For a tracked, non-quarantined connection, the result of
`validateConnection` is the verdict of `runDefenseChecks` on the stored
state with the hard-coded all-false mock signature. -/
theorem validateConnection_result (now : Int) (ip : Str) (port : Int)
    (seq ack : Int) (windowSize : Rat) (flags : List Str)
    (ds : DefenseSystemState) (st : ConnectionState)
    (hq : isQuarantined ip ds = false)
    (hlook : mapGet? ds.connectionStates (connId ip port) = some st) :
    (validateConnection now ip port seq ack windowSize flags ds).2 =
      (runDefenseChecks now seq ack windowSize flags
        { rapidACKs := false, abnormalWindowGrowth := false,
          sequenceGaps := false, suspiciousPattern := false } ds st).2.2 := by
  unfold validateConnection
  dsimp only
  rw [if_neg (by rw [hq]; simp)]
  unfold getOrCreateConnectionState
  dsimp only
  rw [hlook]

/-- C1 as amended: (1) `validateConnection` never adds an IP to the
quarantine set — however the anomaly score accumulates, the quarantine
escalation is unreachable because `validateConnection` passes a
hard-coded all-false attack signature to the anomaly-detection check; and
(2) whenever an IP is already in the quarantine set, every
`validateConnection` call from it is rejected with a block action whose
reason is "IP is quarantined", regardless of seq/ack/window/flags. -/
theorem C1_amended_quarantine :
    (∀ (now : Int) (ip : Str) (port seq ack : Int) (windowSize : Rat)
       (flags : List Str) (ds : DefenseSystemState),
      ((validateConnection now ip port seq ack windowSize flags ds).1).quarantinedIPs =
        ds.quarantinedIPs) ∧
    (∀ (now : Int) (ip : Str) (port seq ack : Int) (windowSize : Rat)
       (flags : List Str) (ds : DefenseSystemState),
      isQuarantined ip ds = true →
      (validateConnection now ip port seq ack windowSize flags ds).2 =
        { allowed := false,
          action := some
            { dtype := .block, reason := str "IP is quarantined",
              severity := .high, timestamp := now,
              connectionId := connId ip port } }) :=
  ⟨fun now ip port seq ack windowSize flags ds =>
      validateConnection_quarantinedIPs now ip port seq ack windowSize flags ds,
   fun now ip port seq ack windowSize flags ds h =>
      validateConnection_quarantined now ip port seq ack windowSize flags ds h⟩

/-- Witness for C1 (amended) on a concrete quarantined defense state. -/
theorem C1_amended_quarantine_witness :
    ((validateConnection 7 probeIP 80 1 2 3 [str "ACK"] quarantinedDS).1).quarantinedIPs =
      [probeIP] ∧
    (validateConnection 7 probeIP 80 1 2 3 [str "ACK"] quarantinedDS).2 =
      { allowed := false,
        action := some
          { dtype := .block, reason := str "IP is quarantined",
            severity := .high, timestamp := 7,
            connectionId := connId probeIP 80 } } := by
  have h := C1_amended_quarantine
  refine ⟨?_, h.2 7 probeIP 80 1 2 3 [str "ACK"] quarantinedDS (by decide)⟩
  rw [h.1 7 probeIP 80 1 2 3 [str "ACK"] quarantinedDS]
  rfl

theorem c1run1_eq : c1run1 = c1DS 0 false [] := by
  unfold c1run1 c1DS c1State initDefenseSystem
  norm_num [validateConnection, isQuarantined, getOrCreateConnectionState,
    mapGet?, mapSet, runDefenseChecks, ackValidationStep, rateLimitStep,
    sequenceStep, windowStep, anomalyStep, validateSequenceNumber,
    validateWindowSize, detectAnomalies, updateAnomalyScore,
    updateConnectionState, checkACKRateLimit, validateACKNumber,
    createDefenseAction, defaultDefenseConfig]

theorem c1run2_eq : c1run2 = c1DS (1/4) false [c1Action 1] := by
  unfold c1run2
  rw [c1run1_eq]
  unfold c1DS c1State c1Action seqRejectReason
  norm_num [validateConnection, isQuarantined, getOrCreateConnectionState,
    mapGet?, mapSet, runDefenseChecks, ackValidationStep, rateLimitStep,
    sequenceStep, windowStep, anomalyStep, validateSequenceNumber,
    validateWindowSize, detectAnomalies, updateAnomalyScore,
    updateConnectionState, checkACKRateLimit, validateACKNumber,
    createDefenseAction, defaultDefenseConfig]

theorem c1run3_eq : c1run3 = c1DS (1/2) false [c1Action 1, c1Action 2] := by
  unfold c1run3
  rw [c1run2_eq]
  unfold c1DS c1State c1Action seqRejectReason
  norm_num [validateConnection, isQuarantined, getOrCreateConnectionState,
    mapGet?, mapSet, runDefenseChecks, ackValidationStep, rateLimitStep,
    sequenceStep, windowStep, anomalyStep, validateSequenceNumber,
    validateWindowSize, detectAnomalies, updateAnomalyScore,
    updateConnectionState, checkACKRateLimit, validateACKNumber,
    createDefenseAction, defaultDefenseConfig]

theorem c1run4_eq :
    c1run4 = c1DS (3/4) true [c1Action 1, c1Action 2, c1Action 3] := by
  unfold c1run4
  rw [c1run3_eq]
  unfold c1DS c1State c1Action seqRejectReason
  norm_num [validateConnection, isQuarantined, getOrCreateConnectionState,
    mapGet?, mapSet, runDefenseChecks, ackValidationStep, rateLimitStep,
    sequenceStep, windowStep, anomalyStep, validateSequenceNumber,
    validateWindowSize, detectAnomalies, updateAnomalyScore,
    updateConnectionState, checkACKRateLimit, validateACKNumber,
    createDefenseAction, defaultDefenseConfig]

theorem c1run5_result :
    c1run5.2 = { allowed := false, action := some (c1Action 4) } := by
  unfold c1run5
  rw [c1run4_eq]
  unfold c1DS c1State c1Action seqRejectReason
  norm_num [validateConnection, isQuarantined, getOrCreateConnectionState,
    mapGet?, mapSet, runDefenseChecks, ackValidationStep, rateLimitStep,
    sequenceStep, windowStep, anomalyStep, validateSequenceNumber,
    validateWindowSize, detectAnomalies, updateAnomalyScore,
    updateConnectionState, checkACKRateLimit, validateACKNumber,
    createDefenseAction, defaultDefenseConfig]

/-- C1 counterexample: after four `validateConnection` calls on a fresh
default defense system — one clean packet, then three with a 199,900-byte
sequence deviation, each adding 0.25 anomaly score — the connection's
anomaly score is 0.75, at or above the 0.7 `suspiciousPatternThreshold`;
yet the quarantine set is still empty, and a fifth call from the same IP
is rejected as a `reject_packet` sequence-tracking action, not with the
claimed "IP is quarantined" block. -/
theorem C1_counterexample :
    (∃ st, mapGet? c1run4.connectionStates (connId probeIP 80) = some st ∧
      defaultDefenseConfig.suspiciousPatternThreshold ≤ st.anomalyScore ∧
      st.suspicious = true) ∧
    c1run4.quarantinedIPs = [] ∧
    c1run5.2.allowed = false ∧
    (∃ a, c1run5.2.action = some a ∧ a.dtype = DActionType.reject_packet ∧
      a.reason ≠ str "IP is quarantined") := by
  refine ⟨⟨c1State (3/4) true, ?_, ?_, rfl⟩, ?_, ?_, ?_⟩
  · rw [c1run4_eq]
    simp [c1DS, mapGet?]
  · norm_num [defaultDefenseConfig, c1State]
  · rw [c1run4_eq]
    rfl
  · rw [c1run5_result]
  · refine ⟨c1Action 4, ?_, rfl, ?_⟩
    · rw [c1run5_result]
    · intro h
      have hc := congrArg (List.take 3) h
      simp [c1Action, seqRejectReason, str] at hc

theorem isPrefixOf_extend (p a b : Str) (h : p.isPrefixOf a = true) :
    p.isPrefixOf (a ++ b) = true := by
  induction p generalizing a with
  | nil => cases hab : a ++ b <;> rfl
  | cons c p' ih =>
    cases a with
    | nil => simp [List.isPrefixOf] at h
    | cons d a' =>
      simp only [List.isPrefixOf, List.cons_append, Bool.and_eq_true] at h ⊢
      exact ⟨h.1, ih a' h.2⟩

theorem validateACKNumber_highAdvance (config : DefenseConfig)
    (st : ConnectionState) (ack : Int)
    (h : ack - st.lastValidAck > config.maxSequenceGap * 2) :
    validateACKNumber config st ack =
      (false, str "Highly suspicious ACK detected: advancing " ++
        intToStr (ack - st.lastValidAck) ++
        str " bytes beyond expected (threshold: " ++
        intToStr (config.maxSequenceGap * 2) ++ str ")") := by
  unfold validateACKNumber
  dsimp only
  rw [if_pos h]

theorem ackValidationStep_rejects (now ack : Int) (flags : List Str)
    (ds : DefenseSystemState) (st : ConnectionState) (r : Str)
    (hen : ds.config.ackValidationEnabled = true)
    (hfl : flags.contains (str "ACK") = true)
    (hsusp : st.suspicious = true)
    (hval : validateACKNumber ds.config st ack = (false, r)) :
    ∃ ds2 st2, ackValidationStep now ack flags ds st =
      (ds2, st2, some
        { allowed := false,
          action := some
            { dtype := .reject_packet, reason := r, severity := .high,
              timestamp := now, connectionId := connId st.ip st.port } }) := by
  unfold ackValidationStep
  dsimp only
  rw [hen, hfl, hsusp]
  simp only [Bool.true_and, Bool.true_or]
  rw [if_pos trivial, hval]
  dsimp only
  unfold createDefenseAction
  dsimp only
  exact ⟨_, _, rfl⟩

theorem runDefenseChecks_ack_reject (now seq ack : Int) (windowSize : Rat)
    (flags : List Str) (signature : AttackSignature)
    (ds : DefenseSystemState) (st : ConnectionState) (r : Str)
    (hen : ds.config.ackValidationEnabled = true)
    (hfl : flags.contains (str "ACK") = true)
    (hsusp : st.suspicious = true)
    (hval : validateACKNumber ds.config st ack = (false, r)) :
    (runDefenseChecks now seq ack windowSize flags signature ds st).2.2 =
      { allowed := false,
        action := some
          { dtype := .reject_packet, reason := r, severity := .high,
            timestamp := now, connectionId := connId st.ip st.port } } := by
  unfold runDefenseChecks
  obtain ⟨ds2, st2, hstep⟩ :=
    ackValidationStep_rejects now ack flags ds st r hen hfl hsusp hval
  rw [hstep]

/-- C2: on a suspicious connection with `ackValidationEnabled`, an
ACK-flagged `validateConnection` call whose ack advances `lastValidAck`
by exactly `2*maxSequenceGap + 1` bytes is rejected by the ACK-validation
check with a `reject_packet` action whose reason begins
"Highly suspicious ACK detected"; an advance of exactly
`2*maxSequenceGap` passes the ACK-validation check; and an ack below
`lastValidAck - 1024` while `lastValidAck > 1024` is rejected as
"Significant ACK regression detected". -/
theorem C2_ack_validation_boundary (now : Int) (ip : Str) (port : Int)
    (seq : Int) (windowSize : Rat) (flags : List Str)
    (ds : DefenseSystemState) (st : ConnectionState)
    (hq : isQuarantined ip ds = false)
    (hlook : mapGet? ds.connectionStates (connId ip port) = some st)
    (hsusp : st.suspicious = true)
    (hen : ds.config.ackValidationEnabled = true)
    (hfl : flags.contains (str "ACK") = true)
    (hG : 0 ≤ ds.config.maxSequenceGap) :
    (∃ a, (validateConnection now ip port seq
        (st.lastValidAck + 2 * ds.config.maxSequenceGap + 1)
        windowSize flags ds).2 =
        { allowed := false, action := some a } ∧
      a.dtype = DActionType.reject_packet ∧
      (str "Highly suspicious ACK detected").isPrefixOf a.reason = true) ∧
    validateACKNumber ds.config st
      (st.lastValidAck + 2 * ds.config.maxSequenceGap) = (true, []) ∧
    (∀ ack, ack < st.lastValidAck - 1024 → st.lastValidAck > 1024 →
      validateACKNumber ds.config st ack =
        (false, str "Significant ACK regression detected: " ++ intToStr ack ++
          str " << " ++ intToStr st.lastValidAck)) := by
  refine ⟨?_, ?_, ?_⟩
  · have hval := validateACKNumber_highAdvance ds.config st
      (st.lastValidAck + 2 * ds.config.maxSequenceGap + 1) (by omega)
    refine ⟨{ dtype := .reject_packet,
              reason := str "Highly suspicious ACK detected: advancing " ++
                intToStr (st.lastValidAck + 2 * ds.config.maxSequenceGap + 1 -
                  st.lastValidAck) ++
                str " bytes beyond expected (threshold: " ++
                intToStr (ds.config.maxSequenceGap * 2) ++ str ")",
              severity := .high, timestamp := now,
              connectionId := connId st.ip st.port }, ?_, rfl, ?_⟩
    · rw [validateConnection_result now ip port seq _ windowSize flags ds st hq hlook,
        runDefenseChecks_ack_reject now seq _ windowSize flags _ ds st _
          hen hfl hsusp hval]
    · exact isPrefixOf_extend _ _ _ (isPrefixOf_extend _ _ _
        (isPrefixOf_extend _ _ _ (isPrefixOf_extend _ _ _ (by decide))))
  · unfold validateACKNumber
    dsimp only
    rw [if_neg (by omega), if_neg (by rintro ⟨h1, h2⟩; omega)]
  · intro ack h1 h2
    unfold validateACKNumber
    dsimp only
    rw [if_neg (by omega), if_pos ⟨h1, h2⟩]

/-- Witness for C2 on a concrete suspicious connection with the default
`maxSequenceGap` of 1,048,576: an advance of 2,097,153 bytes is rejected
with the "Highly suspicious ACK detected" reason. -/
theorem C2_ack_validation_boundary_witness :
    ∃ a, (validateConnection 9 probeIP 80 100
        ((c1State (3/4) true).lastValidAck +
          2 * (c1DS (3/4) true []).config.maxSequenceGap + 1)
        1000 [str "ACK"] (c1DS (3/4) true [])).2 =
      { allowed := false, action := some a } ∧
      a.dtype = DActionType.reject_packet ∧
      (str "Highly suspicious ACK detected").isPrefixOf a.reason = true :=
  (C2_ack_validation_boundary 9 probeIP 80 100 1000 [str "ACK"]
    (c1DS (3/4) true []) (c1State (3/4) true)
    (by decide) rfl rfl rfl (by decide) (by decide)).1

end OptAck
